import Mathlib

/-!
Galactic Roof AI: analytics pipeline, shallow embedding

A shallow embedding of the analytics data processor
(`processLeadData`, `processProjectData`, `processCustomerData`,
`processWeatherEventData`, `generatePrediction`, `savePrediction`,
`generateTimeBasedAggregates`, `processAllData`) together with proofs of the
behavioural claims about it.

Modelling conventions:
* JS numbers are modelled as `ℚ` (exact rational arithmetic); integer-valued
  quantities as `Nat`/`Int`.
* SQL `NULL` / JS `undefined` become `Option`; JS string truthiness (both
  `null` and `""` are falsy) is `truthyStr`.
* Timestamps used in date arithmetic are milliseconds since the epoch (`Int`);
  timestamps that are only ever passed through `strftime` stay `String`.
* The sqlite database is a record of row lists plus a row-id counter; each
  asynchronous db call becomes a pure read or a functional update, and
  injectable failures of individual calls are a `FailurePlan` of booleans.
* `Math.random()` draws are explicit `ℚ` parameters (one per draw), standing
  for an arbitrary value in `[0,1)`.
-/

namespace GalacticRoof

/-- JS truthiness of a nullable string: `null`/`undefined` and `""` are falsy. -/
def truthyStr : Option String → Bool
  | none => false
  | some s => !(s == "")

/-- `s.toLowerCase().includes(pat)` for a lowercase literal `pat`:
substring containment tested on the lowered string. -/
def containsSub (s pat : String) : Bool :=
  (s.toLower.splitOn pat).length != 1

/-! ## Primary entities (read-only to the analytics core) -/

structure Lead where
  id : Nat
  source : Option String
  service_interest : Option String
  created_at : String
deriving Repr, DecidableEq

structure Project where
  id : Nat
  customer_id : Nat
  project_type : Option String
  start_date : Option Int
  end_date : Option Int
  contract_amount : ℚ
  created_at : String
deriving Repr, DecidableEq

structure Customer where
  id : Nat
  name : String
deriving Repr, DecidableEq

structure WeatherEvent where
  id : Nat
  event_type : Option String
  severity : ℚ
  zip : Option String
  event_date : Int
deriving Repr, DecidableEq

structure BusinessMetric where
  metric_name : String
  start_date : String
  end_date : String
  metric_value : ℚ
deriving Repr, DecidableEq

/-! ## Derived analytics rows -/

structure LeadAnalyticsRow where
  id : Nat
  lead_id : Nat
  acquisition_source : String
  acquisition_cost : ℚ
  lead_score : Nat
  conversion_probability : ℚ
  days_to_conversion : Option Nat
  converted_to_customer : Bool
  conversion_date : Option String
deriving Repr, DecidableEq

structure ProjectAnalyticsRow where
  id : Nat
  project_id : Nat
  estimated_cost : ℚ
  actual_cost : ℚ
  cost_variance_percent : ℚ
  estimated_duration : Nat
  actual_duration : Int
  duration_variance_percent : ℚ
  profit_margin : ℚ
  weather_impact_score : ℚ
  customer_satisfaction_score : ℚ
  created_at : String
deriving Repr, DecidableEq

structure CustomerAnalyticsRow where
  id : Nat
  customer_id : Nat
  lifetime_value : ℚ
  acquisition_cost : ℚ
  retention_score : Int
  churn_probability : ℚ
  referral_count : Int
  project_count : Nat
  average_project_value : ℚ
  last_interaction_date : Int
deriving Repr, DecidableEq

structure WeatherImpactRow where
  id : Nat
  weather_event_id : Nat
  leads_generated : Int
  projects_created : Int
  revenue_impact : ℚ
  affected_zip_codes : String
  impact_start_date : Int
  impact_end_date : Int
deriving Repr, DecidableEq

structure PredictionRow where
  id : Nat
  model_name : String
  entity_type : String
  entity_id : Nat
  prediction_type : String
  prediction_value : ℚ
  confidence_score : ℚ
  features_used : List String
  prediction_date : Int
  expiration_date : Int
deriving Repr, DecidableEq

structure AggregateRow where
  id : Nat
  metric_name : String
  aggregation_level : String
  period_start : String
  period_end : String
  value : ℚ
  dimension : Option String
  dimension_value : Option String
deriving Repr, DecidableEq

/-- The sqlite database: primary tables, derived tables, and the rowid
counter used for `lastID` of inserts. -/
structure Db where
  leads : List Lead
  projects : List Project
  customers : List Customer
  weather_events : List WeatherEvent
  business_metrics : List BusinessMetric
  lead_analytics : List LeadAnalyticsRow
  project_analytics : List ProjectAnalyticsRow
  customer_analytics : List CustomerAnalyticsRow
  weather_impact_analytics : List WeatherImpactRow
  predictive_model_results : List PredictionRow
  time_based_aggregates : List AggregateRow
  nextId : Nat
deriving Repr, DecidableEq

/-! ## Lead scoring (`processLeadData`, part_000 lines 831–965) -/

/-- Source bonus of the lead score: the `switch (lead.source.toLowerCase())`. -/
def sourceBonus (src : String) : Nat :=
  if src.toLower == "referral" then 20
  else if src.toLower == "website" then 15
  else if src.toLower == "google" then 10
  else if src.toLower == "facebook" then 5
  else 0

/-- Service-interest bonus: the if/else-if chain of substring tests. -/
def serviceBonus (si : String) : Nat :=
  if containsSub si "roof replacement" then 15
  else if containsSub si "repair" then 10
  else if containsSub si "inspection" then 5
  else 0

/-- `leadScore`: base 50, plus bonuses, capped by `Math.min(100, ·)`. -/
def leadScore (lead : Lead) : Nat :=
  let afterSource :=
    50 + (if truthyStr lead.source then sourceBonus (lead.source.getD "") else 0)
  let afterService :=
    afterSource +
      (if truthyStr lead.service_interest then
        serviceBonus (lead.service_interest.getD "") else 0)
  min 100 afterService

/-- `conversionProbability = leadScore / 100 * 0.8`. -/
def conversionProbability (lead : Lead) : ℚ :=
  (leadScore lead : ℚ) / 100 * 0.8

/-- The acquisition source: the lead source, with fallback "Unknown" when
the source is falsy. -/
def acquisitionSource (lead : Lead) : String :=
  if truthyStr lead.source then lead.source.getD "" else "Unknown"

/-- Acquisition-cost lookup table, `switch (acquisitionSource.toLowerCase())`. -/
def acquisitionCostOf (src : String) : ℚ :=
  if src.toLower == "google" then 75
  else if src.toLower == "facebook" then 50
  else if src.toLower == "website" then 25
  else if src.toLower == "referral" then 100
  else 40

/-- The `leadAnalytics` object built by `processLeadData` (insert shape,
with `id` filled from the rowid counter on insert). -/
def leadAnalyticsObj (lead : Lead) (rid : Nat) : LeadAnalyticsRow :=
  { id := rid
    lead_id := lead.id
    acquisition_source := acquisitionSource lead
    acquisition_cost := acquisitionCostOf (acquisitionSource lead)
    lead_score := leadScore lead
    conversion_probability := conversionProbability lead
    days_to_conversion := none
    converted_to_customer := false
    conversion_date := none }

/-- The `UPDATE lead_analytics SET ...` of `processLeadData`: only the four
recomputed fields are written; `id`, `days_to_conversion`,
`converted_to_customer` and `conversion_date` are untouched. -/
def leadUpdate (lead : Lead) (r : LeadAnalyticsRow) : LeadAnalyticsRow :=
  { r with
    acquisition_source := acquisitionSource lead
    acquisition_cost := acquisitionCostOf (acquisitionSource lead)
    lead_score := leadScore lead
    conversion_probability := conversionProbability lead }

/-- `processLeadData`: check `lead_analytics` for the row of the lead; if present,
`UPDATE` the four recomputed fields on every row with that `lead_id`;
otherwise `INSERT` a fresh row. -/
def processLeadData (lead : Lead) (db : Db) : Db :=
  match db.lead_analytics.find? (fun r => r.lead_id == lead.id) with
  | some _ =>
      { db with lead_analytics :=
          db.lead_analytics.map (fun r =>
            if r.lead_id == lead.id then leadUpdate lead r else r) }
  | none =>
      { db with
        lead_analytics := db.lead_analytics ++ [leadAnalyticsObj lead db.nextId]
        nextId := db.nextId + 1 }

/-! ## Project scoring (`processProjectData`, part_000 lines 972–1090) -/

/-- `estimatedDuration`: 14 days default, 21 for a `project_type` containing
"replacement", 7 for one containing "repair" (case-insensitive). -/
def estimatedDurationOf (project : Project) : Nat :=
  if truthyStr project.project_type then
    if containsSub (project.project_type.getD "") "replacement" then 21
    else if containsSub (project.project_type.getD "") "repair" then 7
    else 14
  else 14

/-- `actualDuration`: with both dates present,
`Math.ceil(Math.abs(endDate - startDate) / (1000*60*60*24))`; otherwise the
estimated duration. -/
def actualDurationOf (project : Project) : Int :=
  match project.start_date, project.end_date with
  | some s, some e => ⌈(((e - s).natAbs : ℚ) / 86400000)⌉
  | _, _ => (estimatedDurationOf project : Int)

/-- Duration as described by the spec sentence for C9 (refinement
comparison only): `ceil((end_date − start_date) in days)`, carrying the sign
of the difference — unlike `actualDurationOf`, which takes `Math.abs` first. -/
def specSignedDurationDays (startMs endMs : Int) : Int :=
  ⌈((endMs - startMs : ℤ) : ℚ) / 86400000⌉

/-- The `projectAnalytics` object built by `processProjectData`; `r` is the
`Math.random()` draw of the cost variance, `sat` the draw of the satisfaction
score, `nowStr` the row-creation timestamp the store supplies on insert. -/
def projectAnalyticsObj (r sat : ℚ) (nowStr : String) (project : Project)
    (rid : Nat) : ProjectAnalyticsRow :=
  let estimatedCost := project.contract_amount * 0.6
  let actualCost := estimatedCost * (r * 0.3 + 0.85)
  { id := rid
    project_id := project.id
    estimated_cost := estimatedCost
    actual_cost := actualCost
    cost_variance_percent := ((actualCost - estimatedCost) / estimatedCost) * 100
    estimated_duration := estimatedDurationOf project
    actual_duration := actualDurationOf project
    duration_variance_percent :=
      (((actualDurationOf project : ℚ) - (estimatedDurationOf project : ℚ)) /
        (estimatedDurationOf project : ℚ)) * 100
    profit_margin := (project.contract_amount - actualCost) / project.contract_amount
    weather_impact_score := 0
    customer_satisfaction_score := sat * 2 + 3
    created_at := nowStr }

/-- The `UPDATE project_analytics SET ...`: the eight recomputed fields only
(not `weather_impact_score`, not `created_at`). -/
def projectUpdate (obj : ProjectAnalyticsRow) (row : ProjectAnalyticsRow) :
    ProjectAnalyticsRow :=
  { row with
    estimated_cost := obj.estimated_cost
    actual_cost := obj.actual_cost
    cost_variance_percent := obj.cost_variance_percent
    estimated_duration := obj.estimated_duration
    actual_duration := obj.actual_duration
    duration_variance_percent := obj.duration_variance_percent
    profit_margin := obj.profit_margin
    customer_satisfaction_score := obj.customer_satisfaction_score }

/-- `processProjectData`: check-then-update-or-insert on `project_analytics`. -/
def processProjectData (r sat : ℚ) (nowStr : String) (project : Project)
    (db : Db) : Db :=
  let obj := projectAnalyticsObj r sat nowStr project db.nextId
  match db.project_analytics.find? (fun row => row.project_id == project.id) with
  | some _ =>
      { db with project_analytics :=
          db.project_analytics.map (fun row =>
            if row.project_id == project.id then projectUpdate obj row else row) }
  | none =>
      { db with
        project_analytics := db.project_analytics ++ [obj]
        nextId := db.nextId + 1 }

/-! ## Customer scoring (`processCustomerData`, part_000 lines 1097–1254) -/

/-- `project.end_date || project.start_date`. -/
def projDate (p : Project) : Option Int :=
  match p.end_date with
  | some e => some e
  | none => p.start_date

/-- The `projects.reduce((latest, project) => ..., {})` picking the project
with the latest available date; the initial `{}` (no dates) is `none`. -/
def lastProject (ps : List Project) : Option Project :=
  ps.foldl (fun latest p =>
    match latest with
    | none => some p
    | some l =>
      match projDate l with
      | none => some p
      | some ld =>
        match projDate p with
        | none => some l
        | some pd => if pd > ld then some p else some l) none

/-- Project-count bonus of the retention score. -/
def projectCountAdj (n : Nat) : Int :=
  if n > 3 then 30 else if n > 1 then 15 else 0

/-- Recency adjustment of the retention score, from the date of the last
project (when there is one). -/
def recencyAdj (now : Int) (ps : List Project) : Int :=
  match (lastProject ps).bind projDate with
  | none => 0
  | some d =>
    let daysSince : Int := ⌊((now - d : ℤ) : ℚ) / 86400000⌋
    if daysSince < 90 then 20
    else if daysSince < 180 then 10
    else if daysSince > 365 then -10
    else 0

/-- Retention score: base 50, project-count bonus, recency adjustment from
the date of the last project, clamped by `Math.min(100, Math.max(0, ·))`. -/
def retentionScoreOf (now : Int) (ps : List Project) : Int :=
  min 100 (max 0 (50 + projectCountAdj ps.length + recencyAdj now ps))

/-- The `customerAnalytics` object; `r1`, `r2` are the `Math.random()` draws
of acquisition cost and referral count, `now` the current time (ms). -/
def customerAnalyticsObj (r1 r2 : ℚ) (now : Int) (customer : Customer)
    (ps : List Project) (rid : Nat) : CustomerAnalyticsRow :=
  let projectCount := ps.length
  let totalProjectValue := (ps.map (fun p => p.contract_amount)).sum
  let averageProjectValue : ℚ :=
    if projectCount > 0 then totalProjectValue / projectCount else 0
  let retentionScore := retentionScoreOf now ps
  { id := rid
    customer_id := customer.id
    lifetime_value := averageProjectValue * projectCount * (1 + 0.3)
    acquisition_cost := ((⌊r1 * 300⌋ : ℤ) : ℚ) + 100
    retention_score := retentionScore
    churn_probability := max 0 (1 - ((retentionScore : ℚ) / 100) * 0.9)
    referral_count := ⌊r2 * 3⌋
    project_count := projectCount
    average_project_value := averageProjectValue
    last_interaction_date := now }

/-- The `UPDATE customer_analytics SET ...`: the eight recomputed fields. -/
def customerUpdate (obj : CustomerAnalyticsRow) (row : CustomerAnalyticsRow) :
    CustomerAnalyticsRow :=
  { row with
    lifetime_value := obj.lifetime_value
    acquisition_cost := obj.acquisition_cost
    retention_score := obj.retention_score
    churn_probability := obj.churn_probability
    referral_count := obj.referral_count
    project_count := obj.project_count
    average_project_value := obj.average_project_value
    last_interaction_date := obj.last_interaction_date }

/-- `processCustomerData`: reads the projects of the customer, computes the
metrics, then check-then-update-or-insert on `customer_analytics`. -/
def processCustomerData (r1 r2 : ℚ) (now : Int) (customer : Customer)
    (db : Db) : Db :=
  let ps := db.projects.filter (fun p => p.customer_id == customer.id)
  let obj := customerAnalyticsObj r1 r2 now customer ps db.nextId
  match db.customer_analytics.find? (fun row => row.customer_id == customer.id) with
  | some _ =>
      { db with customer_analytics :=
          db.customer_analytics.map (fun row =>
            if row.customer_id == customer.id then customerUpdate obj row else row) }
  | none =>
      { db with
        customer_analytics := db.customer_analytics ++ [obj]
        nextId := db.nextId + 1 }

/-! ## Weather impact (`processWeatherEventData`, part_000 lines 1261–1378) -/

/-- Lead multiplier of `switch (weatherEvent.event_type?.toLowerCase())`;
a missing `event_type` falls into the default bucket. -/
def weatherMultiplier : Option String → ℚ
  | none => 3
  | some s =>
    if s.toLower == "hail storm" then 5
    else if s.toLower == "tornado" then 8
    else if s.toLower == "hurricane" then 10
    else if s.toLower == "wind storm" then 4
    else if s.toLower == "heavy rain" then 2
    else 3

/-- The `weatherImpactAnalytics` object. -/
def weatherImpactObj (w : WeatherEvent) (rid : Nat) : WeatherImpactRow :=
  let leadsGenerated : Int := ⌊w.severity * weatherMultiplier w.event_type⌋
  let projectsCreated : Int := ⌊(leadsGenerated : ℚ) * 0.4⌋
  { id := rid
    weather_event_id := w.id
    leads_generated := leadsGenerated
    projects_created := projectsCreated
    revenue_impact := (projectsCreated : ℚ) * 8500
    affected_zip_codes := (w.zip.getD "")
    impact_start_date := w.event_date
    impact_end_date := w.event_date + 30 * 86400000 }

/-- The `UPDATE weather_impact_analytics SET ...`: the six recomputed
fields. -/
def weatherUpdate (obj : WeatherImpactRow) (row : WeatherImpactRow) :
    WeatherImpactRow :=
  { row with
    leads_generated := obj.leads_generated
    projects_created := obj.projects_created
    revenue_impact := obj.revenue_impact
    affected_zip_codes := obj.affected_zip_codes
    impact_start_date := obj.impact_start_date
    impact_end_date := obj.impact_end_date }

/-- `processWeatherEventData`: check-then-update-or-insert on
`weather_impact_analytics`. -/
def processWeatherEventData (w : WeatherEvent) (db : Db) : Db :=
  let obj := weatherImpactObj w db.nextId
  match db.weather_impact_analytics.find?
      (fun row => row.weather_event_id == w.id) with
  | some _ =>
      { db with weather_impact_analytics :=
          db.weather_impact_analytics.map (fun row =>
            if row.weather_event_id == w.id then weatherUpdate obj row else row) }
  | none =>
      { db with
        weather_impact_analytics := db.weather_impact_analytics ++ [obj]
        nextId := db.nextId + 1 }

/-! ## Prediction dispatcher (`generatePrediction` / `savePrediction`,
part_000 lines 1388–1611) -/

/-- Errors surfaced by rejected promises: an sqlite read/write failure, or
the entity-not-found rejection of the dispatcher. -/
inductive AppError where
  | storeError : AppError
  | notFound (entityType : String) (entityId : Nat) : AppError
  | invalidLevel (aggregationLevel : String) : AppError
  | invalidMetric (metricName : String) : AppError
deriving Repr, DecidableEq

/-- Which of the individual db calls of `generatePrediction` fail with a
store error: the initial entity read, the analytics read of the strategy, the
`savePrediction` existence check, and the `savePrediction` write. -/
structure FailurePlan where
  entityRead : Bool
  analyticsRead : Bool
  predCheck : Bool
  predWrite : Bool
deriving Repr, DecidableEq

/-- The all-succeed plan. -/
def noFail : FailurePlan :=
  { entityRead := false, analyticsRead := false, predCheck := false
    predWrite := false }

/-- Entity lookup by id: the queried table name is built
by appending `s`; a name that is not one of the entity tables of the schema makes
the query itself fail. Only existence of the row is ever used. -/
def entityExists (entityType : String) (entityId : Nat) (db : Db) :
    Except AppError Bool :=
  if entityType == "lead" then
    .ok (db.leads.any (fun l => l.id == entityId))
  else if entityType == "customer" then
    .ok (db.customers.any (fun c => c.id == entityId))
  else if entityType == "project" then
    .ok (db.projects.any (fun p => p.id == entityId))
  else if entityType == "weather_event" then
    .ok (db.weather_events.any (fun w => w.id == entityId))
  else
    .error .storeError

/-- The `UPDATE predictive_model_results SET ...`: the five value fields;
the four key fields and `id` are untouched. -/
def predictionUpdate (predictionValue confidenceScore : ℚ)
    (featuresUsed : List String) (now expirationDate : Int)
    (r : PredictionRow) : PredictionRow :=
  { r with
    prediction_value := predictionValue
    confidence_score := confidenceScore
    features_used := featuresUsed
    prediction_date := now
    expiration_date := expirationDate }

/-- `savePrediction`: look the row up by the four-part key; if found,
`UPDATE ... WHERE id = ?` the value fields of that row; else `INSERT` a new
row. `expirationDate = now + expirationDays`. -/
def savePrediction (plan : FailurePlan) (now : Int)
    (modelName entityType : String) (entityId : Nat) (predictionType : String)
    (predictionValue confidenceScore : ℚ) (featuresUsed : List String)
    (expirationDays : Int) (db : Db) : Except AppError (PredictionRow × Db) :=
  if plan.predCheck then .error .storeError else
  let expirationDate := now + expirationDays * 86400000
  match db.predictive_model_results.find? (fun r =>
      r.model_name == modelName && r.entity_type == entityType &&
      r.entity_id == entityId && r.prediction_type == predictionType) with
  | some row0 =>
      if plan.predWrite then .error .storeError else
      let upd := predictionUpdate predictionValue confidenceScore featuresUsed
        now expirationDate
      .ok ({ upd row0 with id := row0.id },
        { db with predictive_model_results :=
            db.predictive_model_results.map (fun r =>
              if r.id == row0.id then upd r else r) })
  | none =>
      if plan.predWrite then .error .storeError else
      let row : PredictionRow :=
        { id := db.nextId
          model_name := modelName
          entity_type := entityType
          entity_id := entityId
          prediction_type := predictionType
          prediction_value := predictionValue
          confidence_score := confidenceScore
          features_used := featuresUsed
          prediction_date := now
          expiration_date := expirationDate }
      .ok (row,
        { db with
          predictive_model_results := db.predictive_model_results ++ [row]
          nextId := db.nextId + 1 })

/-- Outcome of the analytics read of a named strategy: mirrors the
`(err, row) => if (err || !row) … else …` callback, keeping the error case
distinct from the row-absent case. -/
def analyticsReadResult {α : Type} (fails : Bool) (found : Option α) :
    Except AppError (Option α) :=
  if fails then .error .storeError else .ok found

/-- `generatePrediction`: entity lookup, strategy dispatch on
the modelName-underscore-predictionType key, then `savePrediction`. In every named
strategy the error case of the analytics read and its row-absent case both take
the fallback branch (`if (err || !row)`); `rand` is the `Math.random()` draw
used by the fallback/generic value. -/
def generatePrediction (plan : FailurePlan) (rand : ℚ) (now : Int)
    (modelName entityType : String) (entityId : Nat) (predictionType : String)
    (db : Db) : Except AppError (PredictionRow × Db) :=
  if plan.entityRead then .error .storeError else
  match entityExists entityType entityId db with
  | .error e => .error e
  | .ok false => .error (.notFound entityType entityId)
  | .ok true =>
    let key := modelName ++ "_" ++ predictionType
    if key == "lead_conversion_model_conversion_probability" then
      match analyticsReadResult plan.analyticsRead
          (db.lead_analytics.find? (fun r => r.lead_id == entityId)) with
      | .error _ =>
          savePrediction plan now modelName entityType entityId predictionType
            (rand * 0.7 + 0.1) 0.6 ["basic_lead_info"] 30 db
      | .ok none =>
          savePrediction plan now modelName entityType entityId predictionType
            (rand * 0.7 + 0.1) 0.6 ["basic_lead_info"] 30 db
      | .ok (some la) =>
          savePrediction plan now modelName entityType entityId predictionType
            la.conversion_probability 0.8
            ["lead_score", "acquisition_source", "service_interest"] 30 db
    else if key == "customer_churn_model_churn_probability" then
      match analyticsReadResult plan.analyticsRead
          (db.customer_analytics.find? (fun r => r.customer_id == entityId)) with
      | .error _ =>
          savePrediction plan now modelName entityType entityId predictionType
            (rand * 0.4 + 0.1) 0.6 ["basic_customer_info"] 30 db
      | .ok none =>
          savePrediction plan now modelName entityType entityId predictionType
            (rand * 0.4 + 0.1) 0.6 ["basic_customer_info"] 30 db
      | .ok (some ca) =>
          savePrediction plan now modelName entityType entityId predictionType
            ca.churn_probability 0.85
            ["retention_score", "project_count", "lifetime_value",
              "last_interaction_date"] 30 db
    else if key == "project_cost_model_cost_overrun_probability" then
      match analyticsReadResult plan.analyticsRead
          (db.project_analytics.find? (fun r => r.project_id == entityId)) with
      | .error _ =>
          savePrediction plan now modelName entityType entityId predictionType
            (rand * 0.5 + 0.2) 0.7 ["basic_project_info"] 30 db
      | .ok none =>
          savePrediction plan now modelName entityType entityId predictionType
            (rand * 0.5 + 0.2) 0.7 ["basic_project_info"] 30 db
      | .ok (some pa) =>
          savePrediction plan now modelName entityType entityId predictionType
            (if pa.cost_variance_percent > 0 then 0.7 else 0.3) 0.8
            ["estimated_cost", "project_type", "historical_variance"] 30 db
    else
      savePrediction plan now modelName entityType entityId predictionType
        rand 0.5 ["generic_features"] 30 db

/-! ## Time aggregator (`generateTimeBasedAggregates`, part_000 lines
1619–1797)

The sqlite `strftime` truncation is external library code; it enters the
model as an abstract parameter `strf : format → date-string → period-key`.
The `periodDays` local of the source is computed but never used downstream
and is omitted. -/

/-- One `GROUP BY` bucket before row-id assignment. -/
structure Bucket where
  period_start : String
  period_end : String
  value : ℚ
deriving Repr, DecidableEq

/-- Insert into an ascending list (by string comparison). -/
def insertAsc (x : String) : List String → List String
  | [] => [x]
  | y :: ys => if x < y then x :: y :: ys else y :: insertAsc x ys

/-- Sort strings ascending — the `ORDER BY period` of each aggregate query. -/
def sortAsc (l : List String) : List String := l.foldr insertAsc []

/-- `MIN` of a text column over a group. -/
def minStr : List String → String
  | [] => ""
  | x :: xs => xs.foldl (fun a b => if b < a then b else a) x

/-- `MAX` of a text column over a group. -/
def maxStr : List String → String
  | [] => ""
  | x :: xs => xs.foldl (fun a b => if a < b then b else a) x

/-- `GROUP BY keyOf(row) ORDER BY keyOf(row)`, aggregating each group with
`mk`. -/
def bucketsBy {α : Type} (keyOf : α → String) (mk : List α → Bucket)
    (rows : List α) : List Bucket :=
  (sortAsc (rows.map keyOf).eraseDups).map
    (fun k => mk (rows.filter (fun r => keyOf r == k)))

/-- The `switch (aggregationLevel)` selecting the `strftime` format;
`none` is the rejecting default branch. -/
def aggFormat (aggregationLevel : String) : Option String :=
  if aggregationLevel == "daily" then some "%Y-%m-%d"
  else if aggregationLevel == "weekly" then some "%Y-%W"
  else if aggregationLevel == "monthly" then some "%Y-%m"
  else if aggregationLevel == "quarterly" then some "%Y-Q%Q"
  else if aggregationLevel == "yearly" then some "%Y"
  else none

/-- The `switch (metricName)` queries: which rows are read, how they are
keyed, and the per-bucket `MIN`/`MAX`/`SUM`/`COUNT`/ratio/`AVG`. -/
def metricBuckets (strf : String → String → String) (fmt metricName : String)
    (db : Db) : Except AppError (List Bucket) :=
  if metricName == "revenue" || metricName == "profit" then
    let rows := db.business_metrics.filter (fun m => m.metric_name == metricName)
    .ok (bucketsBy (fun m => strf fmt m.end_date)
      (fun g =>
        { period_start := minStr (g.map (fun m => m.start_date))
          period_end := maxStr (g.map (fun m => m.end_date))
          value := (g.map (fun m => m.metric_value)).sum }) rows)
  else if metricName == "leads" then
    .ok (bucketsBy (fun (l : Lead) => strf fmt l.created_at)
      (fun g =>
        { period_start := minStr (g.map (fun l => l.created_at))
          period_end := maxStr (g.map (fun l => l.created_at))
          value := (g.length : ℚ) }) db.leads)
  else if metricName == "projects" then
    .ok (bucketsBy (fun (p : Project) => strf fmt p.created_at)
      (fun g =>
        { period_start := minStr (g.map (fun p => p.created_at))
          period_end := maxStr (g.map (fun p => p.created_at))
          value := (g.length : ℚ) }) db.projects)
  else if metricName == "lead_conversion_rate" then
    let rows := db.lead_analytics.filter (fun r => r.conversion_date.isSome)
    .ok (bucketsBy (fun r => strf fmt (r.conversion_date.getD ""))
      (fun g =>
        { period_start := minStr (g.map (fun r => r.conversion_date.getD ""))
          period_end := maxStr (g.map (fun r => r.conversion_date.getD ""))
          value :=
            ((g.filter (fun r => r.converted_to_customer)).length : ℚ) * 100 /
              (g.length : ℚ) }) rows)
  else if metricName == "project_profit_margin" then
    .ok (bucketsBy (fun (r : ProjectAnalyticsRow) => strf fmt r.created_at)
      (fun g =>
        { period_start := minStr (g.map (fun r => r.created_at))
          period_end := maxStr (g.map (fun r => r.created_at))
          value := ((g.map (fun r => r.profit_margin)).sum / (g.length : ℚ)) * 100 })
      db.project_analytics)
  else
    .error (.invalidMetric metricName)

/-- The fresh `time_based_aggregates` rows built from the buckets of one
aggregation run, with row ids counted from `n`. -/
def aggRowsOf (metricName aggregationLevel : String) (n : Nat)
    (buckets : List Bucket) : List AggregateRow :=
  buckets.enum.map (fun ib =>
    { id := n + ib.1
      metric_name := metricName
      aggregation_level := aggregationLevel
      period_start := ib.2.period_start
      period_end := ib.2.period_end
      value := ib.2.value
      dimension := none
      dimension_value := none })

/-- `generateTimeBasedAggregates`: validate the level, build the buckets,
then `INSERT` every bucket as a fresh `time_based_aggregates` row — with no
existence check against rows already in the table. -/
def generateTimeBasedAggregates (strf : String → String → String)
    (metricName aggregationLevel : String) (db : Db) :
    Except AppError (List AggregateRow) × Db :=
  match aggFormat aggregationLevel with
  | none => (.error (.invalidLevel aggregationLevel), db)
  | some fmt =>
    match metricBuckets strf fmt metricName db with
    | .error e => (.error e, db)
    | .ok buckets =>
      let newRows := aggRowsOf metricName aggregationLevel db.nextId buckets
      (.ok newRows,
        { db with
          time_based_aggregates := db.time_based_aggregates ++ newRows
          nextId := db.nextId + buckets.length })

/-! ## Batch orchestrator (`processAllData`, part_000 lines 1803–1900) -/

/-- The summary object returned by `processAllData`. -/
structure Summary where
  leadsProcessed : Nat
  projectsProcessed : Nat
  customersProcessed : Nat
  weatherEventsProcessed : Nat
  predictionsGenerated : Nat
  aggregatesGenerated : Nat
deriving Repr, DecidableEq

/-- One `await generatePrediction(...)` inside a prediction loop of
`processAllData`, threading the random-draw counter and aborting the fold on
the first rejection. -/
def predStep {α : Type} (idOf : α → Nat) (modelName entityType predictionType : String)
    (rng : Nat → ℚ) (now : Int) (acc : Except AppError (Nat × Db)) (x : α) :
    Except AppError (Nat × Db) :=
  match acc with
  | .error e => .error e
  | .ok (k, db) =>
    match generatePrediction noFail (rng k) now modelName entityType (idOf x)
        predictionType db with
    | .error e => .error e
    | .ok (_, db1) => .ok (k + 1, db1)

/-- One monthly-level aggregate call of
`processAllData`. -/
def aggStep (strf : String → String → String) (acc : Except AppError Db)
    (metricName : String) : Except AppError Db :=
  match acc with
  | .error e => .error e
  | .ok db =>
    match generateTimeBasedAggregates strf metricName "monthly" db with
    | (.error e, _) => .error e
    | (.ok _, db1) => .ok db1

/-- `processAllData`: reconcile all leads, projects, customers and weather
events in sequence; run predictions for the first 10 leads, first 5
customers and first 5 projects (`slice(0, n)` of the loaded lists); run the
six monthly aggregates; return the summary. `predictionsGenerated` is the
literal `10 + 5 + 5` and `aggregatesGenerated` the literal `6` of the
source. `rng k` is the k-th `Math.random()` draw of the run. -/
def processAllData (rng : Nat → ℚ) (now : Int) (nowStr : String)
    (strf : String → String → String) (db0 : Db) :
    Except AppError (Summary × Db) :=
  let leads := db0.leads
  let db1 := leads.foldl (fun db l => processLeadData l db) db0
  let projects := db1.projects
  let kdb2 := projects.foldl (fun kd p =>
      (kd.1 + 2, processProjectData (rng kd.1) (rng (kd.1 + 1)) nowStr p kd.2))
    ((0 : Nat), db1)
  let customers := kdb2.2.customers
  let kdb3 := customers.foldl (fun kd c =>
      (kd.1 + 2, processCustomerData (rng kd.1) (rng (kd.1 + 1)) now c kd.2))
    kdb2
  let weatherEvents := kdb3.2.weather_events
  let db4 := weatherEvents.foldl (fun db w => processWeatherEventData w db) kdb3.2
  match (leads.take 10).foldl
      (predStep (fun l => l.id) "lead_conversion_model" "lead"
        "conversion_probability" rng now)
      (.ok (kdb3.1, db4)) with
  | .error e => .error e
  | .ok kdb5 =>
    match (customers.take 5).foldl
        (predStep (fun c => c.id) "customer_churn_model" "customer"
          "churn_probability" rng now)
        (.ok kdb5) with
    | .error e => .error e
    | .ok kdb6 =>
      match (projects.take 5).foldl
          (predStep (fun p => p.id) "project_cost_model" "project"
            "cost_overrun_probability" rng now)
          (.ok kdb6) with
      | .error e => .error e
      | .ok kdb7 =>
        match ["revenue", "profit", "leads", "projects",
            "lead_conversion_rate", "project_profit_margin"].foldl
            (aggStep strf) (.ok kdb7.2) with
        | .error e => .error e
        | .ok dbF =>
          .ok ({ leadsProcessed := leads.length
                 projectsProcessed := projects.length
                 customersProcessed := customers.length
                 weatherEventsProcessed := weatherEvents.length
                 predictionsGenerated := 10 + 5 + 5
                 aggregatesGenerated := 6 }, dbF)

/-! ## Sequences of operations (for the uniqueness invariant) -/

/-- One reconciliation or prediction call, with its random draws and clock
reading as data. -/
inductive Op where
  | lead (l : Lead)
  | project (r sat : ℚ) (nowStr : String) (p : Project)
  | customer (r1 r2 : ℚ) (now : Int) (c : Customer)
  | weather (w : WeatherEvent)
  | predict (rand : ℚ) (now : Int) (modelName entityType : String)
      (entityId : Nat) (predictionType : String)

/-- Apply one call to the store; a rejected `generatePrediction` (entity
missing, or an entity type with no table) leaves the store untouched, which
is what the source does — it rejects before any write. -/
def applyOp (o : Op) (db : Db) : Db :=
  match o with
  | .lead l => processLeadData l db
  | .project r sat nowStr p => processProjectData r sat nowStr p db
  | .customer r1 r2 now c => processCustomerData r1 r2 now c db
  | .weather w => processWeatherEventData w db
  | .predict rand now m t i pt =>
    match generatePrediction noFail rand now m t i pt db with
    | .ok (_, db1) => db1
    | .error _ => db

/-- Apply a sequence of calls left to right. -/
def applyOps (ops : List Op) (db : Db) : Db :=
  ops.foldl (fun d o => applyOp o d) db

/-! ## Row counts per key -/

/-- Rows of `lead_analytics` whose `lead_id` is `i`. -/
def leadRowCount (db : Db) (i : Nat) : Nat :=
  db.lead_analytics.countP (fun r => r.lead_id == i)

/-- Rows of `project_analytics` whose `project_id` is `i`. -/
def projectRowCount (db : Db) (i : Nat) : Nat :=
  db.project_analytics.countP (fun r => r.project_id == i)

/-- Rows of `customer_analytics` whose `customer_id` is `i`. -/
def customerRowCount (db : Db) (i : Nat) : Nat :=
  db.customer_analytics.countP (fun r => r.customer_id == i)

/-- Rows of `weather_impact_analytics` whose `weather_event_id` is `i`. -/
def weatherRowCount (db : Db) (i : Nat) : Nat :=
  db.weather_impact_analytics.countP (fun r => r.weather_event_id == i)

/-- Rows of `predictive_model_results` with the given four-part key. -/
def predRowCount (db : Db) (m t : String) (i : Nat) (pt : String) : Nat :=
  db.predictive_model_results.countP (fun r =>
    r.model_name == m && r.entity_type == t &&
    r.entity_id == i && r.prediction_type == pt)

/-- Every derived store holds at most one row per key. -/
def UniqueKeys (db : Db) : Prop :=
  (∀ i, leadRowCount db i ≤ 1) ∧
  (∀ i, projectRowCount db i ≤ 1) ∧
  (∀ i, customerRowCount db i ≤ 1) ∧
  (∀ i, weatherRowCount db i ≤ 1) ∧
  (∀ m t i pt, predRowCount db m t i pt ≤ 1)

/-- What one successful prediction call guarantees about the store: every
table other than `predictive_model_results` is untouched, the four-part key of the call
now has exactly one row, and the row count of every other key is
unchanged. -/
def PredCallProps (db db1 : Db) (m t : String) (i : Nat) (pt : String) : Prop :=
  db1.leads = db.leads ∧ db1.projects = db.projects ∧
  db1.customers = db.customers ∧ db1.weather_events = db.weather_events ∧
  db1.business_metrics = db.business_metrics ∧
  db1.lead_analytics = db.lead_analytics ∧
  db1.project_analytics = db.project_analytics ∧
  db1.customer_analytics = db.customer_analytics ∧
  db1.weather_impact_analytics = db.weather_impact_analytics ∧
  db1.time_based_aggregates = db.time_based_aggregates ∧
  (predRowCount db m t i pt ≤ 1 → predRowCount db1 m t i pt = 1) ∧
  (∀ m2 t2 i2 pt2, ¬(m2 = m ∧ t2 = t ∧ i2 = i ∧ pt2 = pt) →
    predRowCount db1 m2 t2 i2 pt2 = predRowCount db m2 t2 i2 pt2)

/-! ## Concrete fixtures (used by the closed instance theorems) -/

/-- A store with every table empty, rowid counter at 1. -/
def emptyDb : Db :=
  { leads := [], projects := [], customers := [], weather_events := []
    business_metrics := [], lead_analytics := [], project_analytics := []
    customer_analytics := [], weather_impact_analytics := []
    predictive_model_results := [], time_based_aggregates := [], nextId := 1 }

/-- A referral lead interested in roof replacement. -/
def exLead : Lead :=
  { id := 1, source := some "Referral"
    service_interest := some "Roof Replacement", created_at := "2024-01-05" }

/-- A roof-replacement project running from day 0 to day 3 (in ms). -/
def exProject : Project :=
  { id := 1, customer_id := 1, project_type := some "Roof Replacement"
    start_date := some 0, end_date := some 259200000
    contract_amount := 12500, created_at := "2024-02-01" }

/-- A project whose `end_date` precedes its `start_date` by three days. -/
def exProjectRev : Project :=
  { id := 2, customer_id := 1, project_type := some "Roof Replacement"
    start_date := some 259200000, end_date := some 0
    contract_amount := 12500, created_at := "2024-02-02" }

/-- A customer. -/
def exCustomer : Customer := { id := 1, name := "Ada" }

/-- A hail-storm weather event of severity 4.2. -/
def exWeather : WeatherEvent :=
  { id := 1, event_type := some "Hail Storm", severity := 42/10
    zip := some "12345", event_date := 0 }

/-- A business-metric ledger row. -/
def exMetricRow : BusinessMetric :=
  { metric_name := "revenue", start_date := "2024-01-01"
    end_date := "2024-01-20", metric_value := 7 }

/-- The store holding the single fixture lead/customer/project/metric row. -/
def exDb : Db :=
  { emptyDb with
    leads := [exLead], customers := [exCustomer], projects := [exProject]
    business_metrics := [exMetricRow] }

/-- `exDb` after its lead has been reconciled once. -/
def exDbLead : Db := processLeadData exLead exDb

/-- A month-prefix stand-in for `strftime` (enough for closed instances). -/
def exStrf : String → String → String := fun _ d => d.take 7

/-- A constant random source. -/
def exRng : Nat → ℚ := fun _ => 1/2

/-- The failure plan in which only the analytics read of the named strategy
fails. -/
def exPlanAnalyticsFail : FailurePlan :=
  { entityRead := false, analyticsRead := true, predCheck := false
    predWrite := false }

/-- A second fixture lead. -/
def exLead2 : Lead :=
  { id := 2, source := none, service_interest := none
    created_at := "2024-01-06" }

/-- A third fixture lead. -/
def exLead3 : Lead :=
  { id := 3, source := some "google", service_interest := some "repair"
    created_at := "2024-02-07" }

/-- A second fixture customer. -/
def exCustomer2 : Customer := { id := 2, name := "Grace" }

/-- A store with three leads, two customers, no projects and no weather
events — the batch-orchestrator fixture. -/
def exDbBatch : Db :=
  { emptyDb with
    leads := [exLead, exLead2, exLead3]
    customers := [exCustomer, exCustomer2] }

/-! ## Generic counting lemmas for check-then-update-or-insert -/

theorem countP_map_ite {α : Type} (sel q : α → Bool) (upd : α → α)
    (h : ∀ r, q (upd r) = q r) (rows : List α) :
    (rows.map (fun r => if sel r then upd r else r)).countP q =
      rows.countP q := by
  induction rows with
  | nil => rfl
  | cons a t ih =>
    by_cases hs : sel a = true
    · simp only [List.map_cons, List.countP_cons, hs, if_true, h a, ih]
    · simp only [List.map_cons, List.countP_cons, hs, Bool.false_eq_true,
        if_false, ih]

theorem countP_of_find?_none {α : Type} (q : α → Bool) (rows : List α)
    (h : rows.find? q = none) : rows.countP q = 0 :=
  List.countP_eq_zero.mpr (List.find?_eq_none.mp h)

theorem countP_of_find?_some {α : Type} (q : α → Bool) (rows : List α)
    (r : α) (h : rows.find? q = some r) : 1 ≤ rows.countP q :=
  List.countP_pos_iff.mpr ⟨r, List.mem_of_find?_eq_some h, List.find?_some h⟩

/-! ## Frame and count lemmas for the reconcilers -/

theorem processLeadData_frame (l : Lead) (db : Db) :
    (processLeadData l db).leads = db.leads ∧
    (processLeadData l db).projects = db.projects ∧
    (processLeadData l db).customers = db.customers ∧
    (processLeadData l db).weather_events = db.weather_events ∧
    (processLeadData l db).business_metrics = db.business_metrics ∧
    (processLeadData l db).project_analytics = db.project_analytics ∧
    (processLeadData l db).customer_analytics = db.customer_analytics ∧
    (processLeadData l db).weather_impact_analytics = db.weather_impact_analytics ∧
    (processLeadData l db).predictive_model_results = db.predictive_model_results ∧
    (processLeadData l db).time_based_aggregates = db.time_based_aggregates := by
  unfold processLeadData
  cases db.lead_analytics.find? (fun r => r.lead_id == l.id) <;> simp

theorem processLeadData_count_self (l : Lead) (db : Db)
    (h : leadRowCount db l.id ≤ 1) :
    leadRowCount (processLeadData l db) l.id = 1 := by
  unfold processLeadData leadRowCount
  cases hf : db.lead_analytics.find? (fun r => r.lead_id == l.id) with
  | none =>
    have h0 := countP_of_find?_none _ _ hf
    simp [List.countP_append, List.countP_cons, h0, leadAnalyticsObj]
  | some r =>
    have h1 := countP_of_find?_some _ _ _ hf
    simp only []
    rw [countP_map_ite (fun r => r.lead_id == l.id) (fun r => r.lead_id == l.id)
      (leadUpdate l) (fun r => rfl)]
    exact le_antisymm h h1

theorem processLeadData_count_other (l : Lead) (db : Db) (i : Nat)
    (hi : i ≠ l.id) :
    leadRowCount (processLeadData l db) i = leadRowCount db i := by
  unfold processLeadData leadRowCount
  cases hf : db.lead_analytics.find? (fun r => r.lead_id == l.id) with
  | none =>
    have : (leadAnalyticsObj l db.nextId).lead_id ≠ i := fun hc => hi (hc ▸ rfl)
    simp [List.countP_append, List.countP_cons, this]
  | some r =>
    simp only []
    rw [countP_map_ite (fun r => r.lead_id == l.id) (fun r => r.lead_id == i)
      (leadUpdate l) (fun r => rfl)]

theorem processProjectData_frame (r sat : ℚ) (ns : String) (p : Project)
    (db : Db) :
    (processProjectData r sat ns p db).leads = db.leads ∧
    (processProjectData r sat ns p db).projects = db.projects ∧
    (processProjectData r sat ns p db).customers = db.customers ∧
    (processProjectData r sat ns p db).weather_events = db.weather_events ∧
    (processProjectData r sat ns p db).business_metrics = db.business_metrics ∧
    (processProjectData r sat ns p db).lead_analytics = db.lead_analytics ∧
    (processProjectData r sat ns p db).customer_analytics = db.customer_analytics ∧
    (processProjectData r sat ns p db).weather_impact_analytics =
      db.weather_impact_analytics ∧
    (processProjectData r sat ns p db).predictive_model_results =
      db.predictive_model_results ∧
    (processProjectData r sat ns p db).time_based_aggregates =
      db.time_based_aggregates := by
  unfold processProjectData
  cases db.project_analytics.find? (fun row => row.project_id == p.id) <;> simp

theorem processProjectData_count_self (r sat : ℚ) (ns : String) (p : Project)
    (db : Db) (h : projectRowCount db p.id ≤ 1) :
    projectRowCount (processProjectData r sat ns p db) p.id = 1 := by
  unfold processProjectData projectRowCount
  cases hf : db.project_analytics.find? (fun row => row.project_id == p.id) with
  | none =>
    have h0 := countP_of_find?_none _ _ hf
    simp [List.countP_append, List.countP_cons, h0, projectAnalyticsObj]
  | some row =>
    have h1 := countP_of_find?_some _ _ _ hf
    simp only []
    rw [countP_map_ite (fun row => row.project_id == p.id)
      (fun row => row.project_id == p.id)
      (projectUpdate (projectAnalyticsObj r sat ns p db.nextId)) (fun row => rfl)]
    exact le_antisymm h h1

theorem processProjectData_count_other (r sat : ℚ) (ns : String) (p : Project)
    (db : Db) (i : Nat) (hi : i ≠ p.id) :
    projectRowCount (processProjectData r sat ns p db) i =
      projectRowCount db i := by
  unfold processProjectData projectRowCount
  cases hf : db.project_analytics.find? (fun row => row.project_id == p.id) with
  | none =>
    have : (projectAnalyticsObj r sat ns p db.nextId).project_id ≠ i :=
      fun hc => hi (hc ▸ rfl)
    simp [List.countP_append, List.countP_cons, this]
  | some row =>
    simp only []
    rw [countP_map_ite (fun row => row.project_id == p.id)
      (fun row => row.project_id == i)
      (projectUpdate (projectAnalyticsObj r sat ns p db.nextId)) (fun row => rfl)]

theorem processCustomerData_frame (r1 r2 : ℚ) (now : Int) (c : Customer)
    (db : Db) :
    (processCustomerData r1 r2 now c db).leads = db.leads ∧
    (processCustomerData r1 r2 now c db).projects = db.projects ∧
    (processCustomerData r1 r2 now c db).customers = db.customers ∧
    (processCustomerData r1 r2 now c db).weather_events = db.weather_events ∧
    (processCustomerData r1 r2 now c db).business_metrics = db.business_metrics ∧
    (processCustomerData r1 r2 now c db).lead_analytics = db.lead_analytics ∧
    (processCustomerData r1 r2 now c db).project_analytics = db.project_analytics ∧
    (processCustomerData r1 r2 now c db).weather_impact_analytics =
      db.weather_impact_analytics ∧
    (processCustomerData r1 r2 now c db).predictive_model_results =
      db.predictive_model_results ∧
    (processCustomerData r1 r2 now c db).time_based_aggregates =
      db.time_based_aggregates := by
  unfold processCustomerData
  cases db.customer_analytics.find? (fun row => row.customer_id == c.id) <;> simp

theorem processCustomerData_count_self (r1 r2 : ℚ) (now : Int) (c : Customer)
    (db : Db) (h : customerRowCount db c.id ≤ 1) :
    customerRowCount (processCustomerData r1 r2 now c db) c.id = 1 := by
  unfold processCustomerData customerRowCount
  cases hf : db.customer_analytics.find? (fun row => row.customer_id == c.id) with
  | none =>
    have h0 := countP_of_find?_none _ _ hf
    simp [List.countP_append, List.countP_cons, h0, customerAnalyticsObj]
  | some row =>
    have h1 := countP_of_find?_some _ _ _ hf
    simp only []
    rw [countP_map_ite (fun row => row.customer_id == c.id)
      (fun row => row.customer_id == c.id)
      (customerUpdate (customerAnalyticsObj r1 r2 now c
        (db.projects.filter (fun p => p.customer_id == c.id)) db.nextId))
      (fun row => rfl)]
    exact le_antisymm h h1

theorem processCustomerData_count_other (r1 r2 : ℚ) (now : Int) (c : Customer)
    (db : Db) (i : Nat) (hi : i ≠ c.id) :
    customerRowCount (processCustomerData r1 r2 now c db) i =
      customerRowCount db i := by
  unfold processCustomerData customerRowCount
  cases hf : db.customer_analytics.find? (fun row => row.customer_id == c.id) with
  | none =>
    have : (customerAnalyticsObj r1 r2 now c
        (db.projects.filter (fun p => p.customer_id == c.id)) db.nextId).customer_id ≠ i :=
      fun hc => hi (hc ▸ rfl)
    simp [List.countP_append, List.countP_cons, this]
  | some row =>
    simp only []
    rw [countP_map_ite (fun row => row.customer_id == c.id)
      (fun row => row.customer_id == i)
      (customerUpdate (customerAnalyticsObj r1 r2 now c
        (db.projects.filter (fun p => p.customer_id == c.id)) db.nextId))
      (fun row => rfl)]

theorem processWeatherEventData_frame (w : WeatherEvent) (db : Db) :
    (processWeatherEventData w db).leads = db.leads ∧
    (processWeatherEventData w db).projects = db.projects ∧
    (processWeatherEventData w db).customers = db.customers ∧
    (processWeatherEventData w db).weather_events = db.weather_events ∧
    (processWeatherEventData w db).business_metrics = db.business_metrics ∧
    (processWeatherEventData w db).lead_analytics = db.lead_analytics ∧
    (processWeatherEventData w db).project_analytics = db.project_analytics ∧
    (processWeatherEventData w db).customer_analytics = db.customer_analytics ∧
    (processWeatherEventData w db).predictive_model_results =
      db.predictive_model_results ∧
    (processWeatherEventData w db).time_based_aggregates =
      db.time_based_aggregates := by
  unfold processWeatherEventData
  cases db.weather_impact_analytics.find?
    (fun row => row.weather_event_id == w.id) <;> simp

theorem processWeatherEventData_count_self (w : WeatherEvent) (db : Db)
    (h : weatherRowCount db w.id ≤ 1) :
    weatherRowCount (processWeatherEventData w db) w.id = 1 := by
  unfold processWeatherEventData weatherRowCount
  cases hf : db.weather_impact_analytics.find?
      (fun row => row.weather_event_id == w.id) with
  | none =>
    have h0 := countP_of_find?_none _ _ hf
    simp [List.countP_append, List.countP_cons, h0, weatherImpactObj]
  | some row =>
    have h1 := countP_of_find?_some _ _ _ hf
    simp only []
    rw [countP_map_ite (fun row => row.weather_event_id == w.id)
      (fun row => row.weather_event_id == w.id)
      (weatherUpdate (weatherImpactObj w db.nextId)) (fun row => rfl)]
    exact le_antisymm h h1

theorem processWeatherEventData_count_other (w : WeatherEvent) (db : Db)
    (i : Nat) (hi : i ≠ w.id) :
    weatherRowCount (processWeatherEventData w db) i = weatherRowCount db i := by
  unfold processWeatherEventData weatherRowCount
  cases hf : db.weather_impact_analytics.find?
      (fun row => row.weather_event_id == w.id) with
  | none =>
    have : (weatherImpactObj w db.nextId).weather_event_id ≠ i :=
      fun hc => hi (hc ▸ rfl)
    simp [List.countP_append, List.countP_cons, this]
  | some row =>
    simp only []
    rw [countP_map_ite (fun row => row.weather_event_id == w.id)
      (fun row => row.weather_event_id == i)
      (weatherUpdate (weatherImpactObj w db.nextId)) (fun row => rfl)]

/-! ## `savePrediction` under the all-succeed plan -/

theorem savePrediction_noFail (now : Int) (m t : String) (i : Nat) (pt : String)
    (v cs : ℚ) (fs : List String) (ed : Int) (db : Db) :
    ∃ res db1,
      savePrediction noFail now m t i pt v cs fs ed db = .ok (res, db1) ∧
      db1.leads = db.leads ∧ db1.projects = db.projects ∧
      db1.customers = db.customers ∧ db1.weather_events = db.weather_events ∧
      db1.business_metrics = db.business_metrics ∧
      db1.lead_analytics = db.lead_analytics ∧
      db1.project_analytics = db.project_analytics ∧
      db1.customer_analytics = db.customer_analytics ∧
      db1.weather_impact_analytics = db.weather_impact_analytics ∧
      db1.time_based_aggregates = db.time_based_aggregates ∧
      (predRowCount db m t i pt ≤ 1 → predRowCount db1 m t i pt = 1) ∧
      (∀ m2 t2 i2 pt2, ¬(m2 = m ∧ t2 = t ∧ i2 = i ∧ pt2 = pt) →
        predRowCount db1 m2 t2 i2 pt2 = predRowCount db m2 t2 i2 pt2) := by
  unfold savePrediction predRowCount
  simp only [noFail, Bool.false_eq_true, if_false]
  cases hf : db.predictive_model_results.find? (fun r =>
      r.model_name == m && r.entity_type == t && r.entity_id == i &&
      r.prediction_type == pt) with
  | some row0 =>
    refine ⟨_, _, rfl, rfl, rfl, rfl, rfl, rfl, rfl, rfl, rfl, rfl, rfl, ?_, ?_⟩
    · intro hle
      have h1 := countP_of_find?_some _ _ _ hf
      rw [countP_map_ite (fun r => r.id == row0.id)
        (fun r => r.model_name == m && r.entity_type == t && r.entity_id == i &&
          r.prediction_type == pt)
        (predictionUpdate v cs fs now (now + ed * 86400000)) (fun r => rfl)]
      exact le_antisymm hle h1
    · intro m2 t2 i2 pt2 _
      rw [countP_map_ite (fun r => r.id == row0.id)
        (fun r => r.model_name == m2 && r.entity_type == t2 && r.entity_id == i2 &&
          r.prediction_type == pt2)
        (predictionUpdate v cs fs now (now + ed * 86400000)) (fun r => rfl)]
  | none =>
    refine ⟨_, _, rfl, rfl, rfl, rfl, rfl, rfl, rfl, rfl, rfl, rfl, rfl, ?_, ?_⟩
    · intro _
      have h0 := countP_of_find?_none _ _ hf
      simp [List.countP_append, List.countP_cons, h0]
    · intro m2 t2 i2 pt2 hne
      simp only [List.countP_append, List.countP_cons]
      have : ¬(m = m2 ∧ t = t2 ∧ i = i2 ∧ pt = pt2) := fun hx =>
        hne ⟨hx.1.symm, hx.2.1.symm, hx.2.2.1.symm, hx.2.2.2.symm⟩
      simp [this]
      intro h1 h2 h3 h4
      exact hne ⟨h1.symm, h2.symm, h3.symm, h4.symm⟩

theorem leadRowCount_congr {db1 db2 : Db}
    (h : db1.lead_analytics = db2.lead_analytics) (i : Nat) :
    leadRowCount db1 i = leadRowCount db2 i := by
  unfold leadRowCount; rw [h]

theorem projectRowCount_congr {db1 db2 : Db}
    (h : db1.project_analytics = db2.project_analytics) (i : Nat) :
    projectRowCount db1 i = projectRowCount db2 i := by
  unfold projectRowCount; rw [h]

theorem customerRowCount_congr {db1 db2 : Db}
    (h : db1.customer_analytics = db2.customer_analytics) (i : Nat) :
    customerRowCount db1 i = customerRowCount db2 i := by
  unfold customerRowCount; rw [h]

theorem weatherRowCount_congr {db1 db2 : Db}
    (h : db1.weather_impact_analytics = db2.weather_impact_analytics) (i : Nat) :
    weatherRowCount db1 i = weatherRowCount db2 i := by
  unfold weatherRowCount; rw [h]

theorem predRowCount_congr {db1 db2 : Db}
    (h : db1.predictive_model_results = db2.predictive_model_results)
    (m t : String) (i : Nat) (pt : String) :
    predRowCount db1 m t i pt = predRowCount db2 m t i pt := by
  unfold predRowCount; rw [h]

theorem savePrediction_ok_props {now : Int} {m t : String} {i : Nat}
    {pt : String} {v cs : ℚ} {fs : List String} {ed : Int} {db : Db}
    {res : PredictionRow} {db1 : Db}
    (h : savePrediction noFail now m t i pt v cs fs ed db = .ok (res, db1)) :
    PredCallProps db db1 m t i pt := by
  obtain ⟨res2, db2, heq, props⟩ := savePrediction_noFail now m t i pt v cs fs ed db
  rw [heq] at h
  cases h
  exact props

theorem generatePrediction_ok_props {rand : ℚ} {now : Int} {m t : String}
    {i : Nat} {pt : String} {db : Db} {res : PredictionRow} {db1 : Db}
    (h : generatePrediction noFail rand now m t i pt db = .ok (res, db1)) :
    PredCallProps db db1 m t i pt := by
  unfold generatePrediction at h
  simp only [noFail, Bool.false_eq_true, if_false, analyticsReadResult] at h
  cases hee : entityExists t i db with
  | error e => rw [hee] at h; exact absurd h (by simp)
  | ok found =>
    rw [hee] at h
    cases found with
    | false => exact absurd h (by simp)
    | true =>
      by_cases h1 : (m ++ "_" ++ pt == "lead_conversion_model_conversion_probability") = true
      · rw [if_pos h1] at h
        cases hfa : db.lead_analytics.find? (fun r => r.lead_id == i) with
        | none => rw [hfa] at h; exact savePrediction_ok_props h
        | some la => rw [hfa] at h; exact savePrediction_ok_props h
      · rw [if_neg h1] at h
        by_cases h2 : (m ++ "_" ++ pt == "customer_churn_model_churn_probability") = true
        · rw [if_pos h2] at h
          cases hfa : db.customer_analytics.find? (fun r => r.customer_id == i) with
          | none => rw [hfa] at h; exact savePrediction_ok_props h
          | some ca => rw [hfa] at h; exact savePrediction_ok_props h
        · rw [if_neg h2] at h
          by_cases h3 : (m ++ "_" ++ pt == "project_cost_model_cost_overrun_probability") = true
          · rw [if_pos h3] at h
            cases hfa : db.project_analytics.find? (fun r => r.project_id == i) with
            | none => rw [hfa] at h; exact savePrediction_ok_props h
            | some pa => rw [hfa] at h; exact savePrediction_ok_props h
          · rw [if_neg h3] at h
            exact savePrediction_ok_props h

/-! ## Invariant preservation over call sequences -/

theorem applyOp_unique (o : Op) (db : Db) (h : UniqueKeys db) :
    UniqueKeys (applyOp o db) := by
  obtain ⟨hl, hp, hc, hw, hpr⟩ := h
  cases o with
  | lead l =>
    obtain ⟨f1, f2, f3, f4, f5, f6, f7, f8, f9, f10⟩ := processLeadData_frame l db
    show UniqueKeys (processLeadData l db)
    refine ⟨fun i => ?_, fun i => ?_, fun i => ?_, fun i => ?_,
      fun m t i pt => ?_⟩
    · by_cases hi : i = l.id
      · subst hi; rw [processLeadData_count_self l db (hl _)]
      · rw [processLeadData_count_other l db i hi]; exact hl i
    · rw [projectRowCount_congr f6]; exact hp i
    · rw [customerRowCount_congr f7]; exact hc i
    · rw [weatherRowCount_congr f8]; exact hw i
    · rw [predRowCount_congr f9]; exact hpr m t i pt
  | project r sat ns p =>
    obtain ⟨f1, f2, f3, f4, f5, f6, f7, f8, f9, f10⟩ :=
      processProjectData_frame r sat ns p db
    show UniqueKeys (processProjectData r sat ns p db)
    refine ⟨fun i => ?_, fun i => ?_, fun i => ?_, fun i => ?_,
      fun m t i pt => ?_⟩
    · rw [leadRowCount_congr f6]; exact hl i
    · by_cases hi : i = p.id
      · subst hi; rw [processProjectData_count_self r sat ns p db (hp _)]
      · rw [processProjectData_count_other r sat ns p db i hi]; exact hp i
    · rw [customerRowCount_congr f7]; exact hc i
    · rw [weatherRowCount_congr f8]; exact hw i
    · rw [predRowCount_congr f9]; exact hpr m t i pt
  | customer r1 r2 now c =>
    obtain ⟨f1, f2, f3, f4, f5, f6, f7, f8, f9, f10⟩ :=
      processCustomerData_frame r1 r2 now c db
    show UniqueKeys (processCustomerData r1 r2 now c db)
    refine ⟨fun i => ?_, fun i => ?_, fun i => ?_, fun i => ?_,
      fun m t i pt => ?_⟩
    · rw [leadRowCount_congr f6]; exact hl i
    · rw [projectRowCount_congr f7]; exact hp i
    · by_cases hi : i = c.id
      · subst hi; rw [processCustomerData_count_self r1 r2 now c db (hc _)]
      · rw [processCustomerData_count_other r1 r2 now c db i hi]; exact hc i
    · rw [weatherRowCount_congr f8]; exact hw i
    · rw [predRowCount_congr f9]; exact hpr m t i pt
  | weather w =>
    obtain ⟨f1, f2, f3, f4, f5, f6, f7, f8, f9, f10⟩ :=
      processWeatherEventData_frame w db
    show UniqueKeys (processWeatherEventData w db)
    refine ⟨fun i => ?_, fun i => ?_, fun i => ?_, fun i => ?_,
      fun m t i pt => ?_⟩
    · rw [leadRowCount_congr f6]; exact hl i
    · rw [projectRowCount_congr f7]; exact hp i
    · rw [customerRowCount_congr f8]; exact hc i
    · by_cases hi : i = w.id
      · subst hi; rw [processWeatherEventData_count_self w db (hw _)]
      · rw [processWeatherEventData_count_other w db i hi]; exact hw i
    · rw [predRowCount_congr f9]; exact hpr m t i pt
  | predict rand now m0 t0 i0 pt0 =>
    show UniqueKeys (match generatePrediction noFail rand now m0 t0 i0 pt0 db with
      | .ok (_, db1) => db1
      | .error _ => db)
    cases hgp : generatePrediction noFail rand now m0 t0 i0 pt0 db with
    | error e => exact ⟨hl, hp, hc, hw, hpr⟩
    | ok resdb =>
      obtain ⟨res, db1⟩ := resdb
      obtain ⟨f1, f2, f3, f4, f5, f6, f7, f8, f9, f10, hself, hother⟩ :=
        generatePrediction_ok_props hgp
      refine ⟨fun i => ?_, fun i => ?_, fun i => ?_, fun i => ?_,
        fun m t i pt => ?_⟩
      · rw [leadRowCount_congr f6]; exact hl i
      · rw [projectRowCount_congr f7]; exact hp i
      · rw [customerRowCount_congr f8]; exact hc i
      · rw [weatherRowCount_congr f9]; exact hw i
      · by_cases hk : m = m0 ∧ t = t0 ∧ i = i0 ∧ pt = pt0
        · obtain ⟨e1, e2, e3, e4⟩ := hk; subst e1; subst e2; subst e3; subst e4
          rw [hself (hpr m t i pt)]
        · rw [hother m t i pt hk]; exact hpr m t i pt

theorem applyOp_leadCount_one (o : Op) (db : Db) (hu : UniqueKeys db) (i : Nat)
    (h : leadRowCount db i = 1) : leadRowCount (applyOp o db) i = 1 := by
  cases o with
  | lead l =>
    by_cases hi : i = l.id
    · subst hi; exact processLeadData_count_self l db (hu.1 _)
    · rw [show applyOp (Op.lead l) db = processLeadData l db from rfl,
        processLeadData_count_other l db i hi]; exact h
  | project r sat ns p =>
    rw [show applyOp (Op.project r sat ns p) db = processProjectData r sat ns p db
      from rfl, leadRowCount_congr (processProjectData_frame r sat ns p db).2.2.2.2.2.1]
    exact h
  | customer r1 r2 now c =>
    rw [show applyOp (Op.customer r1 r2 now c) db = processCustomerData r1 r2 now c db
      from rfl, leadRowCount_congr (processCustomerData_frame r1 r2 now c db).2.2.2.2.2.1]
    exact h
  | weather w =>
    rw [show applyOp (Op.weather w) db = processWeatherEventData w db from rfl,
      leadRowCount_congr (processWeatherEventData_frame w db).2.2.2.2.2.1]
    exact h
  | predict rand now m0 t0 i0 pt0 =>
    show leadRowCount (match generatePrediction noFail rand now m0 t0 i0 pt0 db with
      | .ok (_, db1) => db1
      | .error _ => db) i = 1
    cases hgp : generatePrediction noFail rand now m0 t0 i0 pt0 db with
    | error e => exact h
    | ok resdb =>
      obtain ⟨res, db1⟩ := resdb
      rw [leadRowCount_congr (generatePrediction_ok_props hgp).2.2.2.2.2.1]
      exact h

theorem applyOp_projectCount_one (o : Op) (db : Db) (hu : UniqueKeys db) (i : Nat)
    (h : projectRowCount db i = 1) : projectRowCount (applyOp o db) i = 1 := by
  cases o with
  | lead l =>
    rw [show applyOp (Op.lead l) db = processLeadData l db from rfl,
      projectRowCount_congr (processLeadData_frame l db).2.2.2.2.2.1]
    exact h
  | project r sat ns p =>
    by_cases hi : i = p.id
    · subst hi; exact processProjectData_count_self r sat ns p db (hu.2.1 _)
    · rw [show applyOp (Op.project r sat ns p) db = processProjectData r sat ns p db
        from rfl, processProjectData_count_other r sat ns p db i hi]; exact h
  | customer r1 r2 now c =>
    rw [show applyOp (Op.customer r1 r2 now c) db = processCustomerData r1 r2 now c db
      from rfl, projectRowCount_congr (processCustomerData_frame r1 r2 now c db).2.2.2.2.2.2.1]
    exact h
  | weather w =>
    rw [show applyOp (Op.weather w) db = processWeatherEventData w db from rfl,
      projectRowCount_congr (processWeatherEventData_frame w db).2.2.2.2.2.2.1]
    exact h
  | predict rand now m0 t0 i0 pt0 =>
    show projectRowCount (match generatePrediction noFail rand now m0 t0 i0 pt0 db with
      | .ok (_, db1) => db1
      | .error _ => db) i = 1
    cases hgp : generatePrediction noFail rand now m0 t0 i0 pt0 db with
    | error e => exact h
    | ok resdb =>
      obtain ⟨res, db1⟩ := resdb
      rw [projectRowCount_congr (generatePrediction_ok_props hgp).2.2.2.2.2.2.1]
      exact h

theorem applyOp_customerCount_one (o : Op) (db : Db) (hu : UniqueKeys db) (i : Nat)
    (h : customerRowCount db i = 1) : customerRowCount (applyOp o db) i = 1 := by
  cases o with
  | lead l =>
    rw [show applyOp (Op.lead l) db = processLeadData l db from rfl,
      customerRowCount_congr (processLeadData_frame l db).2.2.2.2.2.2.1]
    exact h
  | project r sat ns p =>
    rw [show applyOp (Op.project r sat ns p) db = processProjectData r sat ns p db
      from rfl, customerRowCount_congr (processProjectData_frame r sat ns p db).2.2.2.2.2.2.1]
    exact h
  | customer r1 r2 now c =>
    by_cases hi : i = c.id
    · subst hi; exact processCustomerData_count_self r1 r2 now c db (hu.2.2.1 _)
    · rw [show applyOp (Op.customer r1 r2 now c) db = processCustomerData r1 r2 now c db
        from rfl, processCustomerData_count_other r1 r2 now c db i hi]; exact h
  | weather w =>
    rw [show applyOp (Op.weather w) db = processWeatherEventData w db from rfl,
      customerRowCount_congr (processWeatherEventData_frame w db).2.2.2.2.2.2.2.1]
    exact h
  | predict rand now m0 t0 i0 pt0 =>
    show customerRowCount (match generatePrediction noFail rand now m0 t0 i0 pt0 db with
      | .ok (_, db1) => db1
      | .error _ => db) i = 1
    cases hgp : generatePrediction noFail rand now m0 t0 i0 pt0 db with
    | error e => exact h
    | ok resdb =>
      obtain ⟨res, db1⟩ := resdb
      rw [customerRowCount_congr (generatePrediction_ok_props hgp).2.2.2.2.2.2.2.1]
      exact h

theorem applyOp_weatherCount_one (o : Op) (db : Db) (hu : UniqueKeys db) (i : Nat)
    (h : weatherRowCount db i = 1) : weatherRowCount (applyOp o db) i = 1 := by
  cases o with
  | lead l =>
    rw [show applyOp (Op.lead l) db = processLeadData l db from rfl,
      weatherRowCount_congr (processLeadData_frame l db).2.2.2.2.2.2.2.1]
    exact h
  | project r sat ns p =>
    rw [show applyOp (Op.project r sat ns p) db = processProjectData r sat ns p db
      from rfl, weatherRowCount_congr (processProjectData_frame r sat ns p db).2.2.2.2.2.2.2.1]
    exact h
  | customer r1 r2 now c =>
    rw [show applyOp (Op.customer r1 r2 now c) db = processCustomerData r1 r2 now c db
      from rfl, weatherRowCount_congr (processCustomerData_frame r1 r2 now c db).2.2.2.2.2.2.2.1]
    exact h
  | weather w =>
    by_cases hi : i = w.id
    · subst hi; exact processWeatherEventData_count_self w db (hu.2.2.2.1 _)
    · rw [show applyOp (Op.weather w) db = processWeatherEventData w db from rfl,
        processWeatherEventData_count_other w db i hi]; exact h
  | predict rand now m0 t0 i0 pt0 =>
    show weatherRowCount (match generatePrediction noFail rand now m0 t0 i0 pt0 db with
      | .ok (_, db1) => db1
      | .error _ => db) i = 1
    cases hgp : generatePrediction noFail rand now m0 t0 i0 pt0 db with
    | error e => exact h
    | ok resdb =>
      obtain ⟨res, db1⟩ := resdb
      rw [weatherRowCount_congr (generatePrediction_ok_props hgp).2.2.2.2.2.2.2.2.1]
      exact h

theorem applyOps_unique (ops : List Op) (db : Db) (h : UniqueKeys db) :
    UniqueKeys (applyOps ops db) := by
  induction ops generalizing db with
  | nil => exact h
  | cons o t ih => exact ih (applyOp o db) (applyOp_unique o db h)

theorem applyOps_leadCount_one (ops : List Op) (db : Db) (hu : UniqueKeys db)
    (i : Nat) (h : leadRowCount db i = 1) :
    leadRowCount (applyOps ops db) i = 1 := by
  induction ops generalizing db with
  | nil => exact h
  | cons o t ih =>
    exact ih (applyOp o db) (applyOp_unique o db hu)
      (applyOp_leadCount_one o db hu i h)

theorem applyOps_projectCount_one (ops : List Op) (db : Db) (hu : UniqueKeys db)
    (i : Nat) (h : projectRowCount db i = 1) :
    projectRowCount (applyOps ops db) i = 1 := by
  induction ops generalizing db with
  | nil => exact h
  | cons o t ih =>
    exact ih (applyOp o db) (applyOp_unique o db hu)
      (applyOp_projectCount_one o db hu i h)

theorem applyOps_customerCount_one (ops : List Op) (db : Db) (hu : UniqueKeys db)
    (i : Nat) (h : customerRowCount db i = 1) :
    customerRowCount (applyOps ops db) i = 1 := by
  induction ops generalizing db with
  | nil => exact h
  | cons o t ih =>
    exact ih (applyOp o db) (applyOp_unique o db hu)
      (applyOp_customerCount_one o db hu i h)

theorem applyOps_weatherCount_one (ops : List Op) (db : Db) (hu : UniqueKeys db)
    (i : Nat) (h : weatherRowCount db i = 1) :
    weatherRowCount (applyOps ops db) i = 1 := by
  induction ops generalizing db with
  | nil => exact h
  | cons o t ih =>
    exact ih (applyOp o db) (applyOp_unique o db hu)
      (applyOp_weatherCount_one o db hu i h)

theorem applyOps_leadMem (ops : List Op) (db : Db) (hu : UniqueKeys db)
    (l : Lead) (hmem : Op.lead l ∈ ops) :
    leadRowCount (applyOps ops db) l.id = 1 := by
  induction ops generalizing db with
  | nil => cases hmem
  | cons o t ih =>
    rcases List.mem_cons.mp hmem with ho | hmem2
    · subst ho
      exact applyOps_leadCount_one t _ (applyOp_unique _ db hu) l.id
        (processLeadData_count_self l db (hu.1 _))
    · exact ih (applyOp o db) (applyOp_unique o db hu) hmem2

theorem applyOps_projectMem (ops : List Op) (db : Db) (hu : UniqueKeys db)
    (r sat : ℚ) (ns : String) (p : Project) (hmem : Op.project r sat ns p ∈ ops) :
    projectRowCount (applyOps ops db) p.id = 1 := by
  induction ops generalizing db with
  | nil => cases hmem
  | cons o t ih =>
    rcases List.mem_cons.mp hmem with ho | hmem2
    · subst ho
      exact applyOps_projectCount_one t _ (applyOp_unique _ db hu) p.id
        (processProjectData_count_self r sat ns p db (hu.2.1 _))
    · exact ih (applyOp o db) (applyOp_unique o db hu) hmem2

theorem applyOps_customerMem (ops : List Op) (db : Db) (hu : UniqueKeys db)
    (r1 r2 : ℚ) (now : Int) (c : Customer) (hmem : Op.customer r1 r2 now c ∈ ops) :
    customerRowCount (applyOps ops db) c.id = 1 := by
  induction ops generalizing db with
  | nil => cases hmem
  | cons o t ih =>
    rcases List.mem_cons.mp hmem with ho | hmem2
    · subst ho
      exact applyOps_customerCount_one t _ (applyOp_unique _ db hu) c.id
        (processCustomerData_count_self r1 r2 now c db (hu.2.2.1 _))
    · exact ih (applyOp o db) (applyOp_unique o db hu) hmem2

theorem applyOps_weatherMem (ops : List Op) (db : Db) (hu : UniqueKeys db)
    (w : WeatherEvent) (hmem : Op.weather w ∈ ops) :
    weatherRowCount (applyOps ops db) w.id = 1 := by
  induction ops generalizing db with
  | nil => cases hmem
  | cons o t ih =>
    rcases List.mem_cons.mp hmem with ho | hmem2
    · subst ho
      exact applyOps_weatherCount_one t _ (applyOp_unique _ db hu) w.id
        (processWeatherEventData_count_self w db (hu.2.2.2.1 _))
    · exact ih (applyOp o db) (applyOp_unique o db hu) hmem2

/-! ## Row-level characterisation of the reconcilers -/

theorem processLeadData_row_spec (lead : Lead) (db : Db) :
    ∀ r ∈ (processLeadData lead db).lead_analytics, r.lead_id = lead.id →
      r.acquisition_source = acquisitionSource lead ∧
      r.acquisition_cost = acquisitionCostOf (acquisitionSource lead) ∧
      r.lead_score = leadScore lead ∧
      r.conversion_probability = conversionProbability lead := by
  intro r hr hid
  unfold processLeadData at hr
  cases hf : db.lead_analytics.find? (fun x => x.lead_id == lead.id) with
  | some x =>
    rw [hf] at hr
    obtain ⟨r0, hr0, hr0e⟩ := List.mem_map.mp hr
    by_cases hc : (r0.lead_id == lead.id) = true
    · rw [if_pos hc] at hr0e; subst hr0e; exact ⟨rfl, rfl, rfl, rfl⟩
    · rw [if_neg hc] at hr0e; subst hr0e
      exact absurd (by simpa using hid) (by simpa using hc)
  | none =>
    rw [hf] at hr
    rcases List.mem_append.mp hr with hold | hnew
    · have hnone := List.find?_eq_none.mp hf r hold
      simp [hid] at hnone
    · have he : r = leadAnalyticsObj lead db.nextId := by simpa using hnew
      subst he; exact ⟨rfl, rfl, rfl, rfl⟩

theorem processProjectData_row_spec (r sat : ℚ) (ns : String) (p : Project)
    (db : Db) :
    ∀ row ∈ (processProjectData r sat ns p db).project_analytics,
      row.project_id = p.id →
      row.estimated_cost = p.contract_amount * 0.6 ∧
      row.actual_cost = p.contract_amount * 0.6 * (r * 0.3 + 0.85) ∧
      row.cost_variance_percent =
        ((p.contract_amount * 0.6 * (r * 0.3 + 0.85) - p.contract_amount * 0.6) /
          (p.contract_amount * 0.6)) * 100 ∧
      row.estimated_duration = estimatedDurationOf p ∧
      row.actual_duration = actualDurationOf p ∧
      row.profit_margin =
        (p.contract_amount - p.contract_amount * 0.6 * (r * 0.3 + 0.85)) /
          p.contract_amount ∧
      row.customer_satisfaction_score = sat * 2 + 3 := by
  intro row hr hid
  unfold processProjectData at hr
  cases hf : db.project_analytics.find? (fun x => x.project_id == p.id) with
  | some x =>
    rw [hf] at hr
    obtain ⟨r0, hr0, hr0e⟩ := List.mem_map.mp hr
    by_cases hc : (r0.project_id == p.id) = true
    · rw [if_pos hc] at hr0e; subst hr0e
      exact ⟨rfl, rfl, rfl, rfl, rfl, rfl, rfl⟩
    · rw [if_neg hc] at hr0e; subst hr0e
      exact absurd (by simpa using hid) (by simpa using hc)
  | none =>
    rw [hf] at hr
    rcases List.mem_append.mp hr with hold | hnew
    · have hnone := List.find?_eq_none.mp hf row hold
      simp [hid] at hnone
    · have he : row = projectAnalyticsObj r sat ns p db.nextId := by simpa using hnew
      subst he; exact ⟨rfl, rfl, rfl, rfl, rfl, rfl, rfl⟩

theorem processCustomerData_row_spec (r1 r2 : ℚ) (now : Int) (c : Customer)
    (db : Db) :
    ∀ row ∈ (processCustomerData r1 r2 now c db).customer_analytics,
      row.customer_id = c.id →
      row.retention_score =
        retentionScoreOf now (db.projects.filter (fun p => p.customer_id == c.id)) ∧
      row.churn_probability =
        max 0 (1 - ((row.retention_score : ℚ) / 100) * 0.9) ∧
      row.project_count =
        (db.projects.filter (fun p => p.customer_id == c.id)).length ∧
      row.last_interaction_date = now := by
  intro row hr hid
  unfold processCustomerData at hr
  cases hf : db.customer_analytics.find? (fun x => x.customer_id == c.id) with
  | some x =>
    rw [hf] at hr
    obtain ⟨r0, hr0, hr0e⟩ := List.mem_map.mp hr
    by_cases hc : (r0.customer_id == c.id) = true
    · rw [if_pos hc] at hr0e; subst hr0e
      exact ⟨rfl, rfl, rfl, rfl⟩
    · rw [if_neg hc] at hr0e; subst hr0e
      exact absurd (by simpa using hid) (by simpa using hc)
  | none =>
    rw [hf] at hr
    rcases List.mem_append.mp hr with hold | hnew
    · have hnone := List.find?_eq_none.mp hf row hold
      simp [hid] at hnone
    · have he : row = customerAnalyticsObj r1 r2 now c
          (db.projects.filter (fun p => p.customer_id == c.id)) db.nextId := by
        simpa using hnew
      subst he; exact ⟨rfl, rfl, rfl, rfl⟩

/-! ## Claim C1 -/

/-- C1. For every lead, the computed lead score lies in `[0, 100]`
(base 50, plus the source bonus — referral +20, website +15, google +10,
facebook +5, otherwise +0 — plus the service-interest bonus — "roof
replacement" +15, else "repair" +10, else "inspection" +5, else +0 — capped
at 100 by `Math.min`), and the stored `conversion_probability` equals
`lead_score / 100 × 0.8` exactly. -/
theorem lead_score_range_conversion_exact (lead : Lead) (db : Db) :
    (0 : ℚ) ≤ (leadScore lead : ℚ) ∧ (leadScore lead : ℚ) ≤ 100 ∧
    ∀ r ∈ (processLeadData lead db).lead_analytics, r.lead_id = lead.id →
      r.lead_score = leadScore lead ∧
      (0 : ℚ) ≤ (r.lead_score : ℚ) ∧ (r.lead_score : ℚ) ≤ 100 ∧
      r.conversion_probability = (r.lead_score : ℚ) / 100 * 0.8 := by
  have hle : leadScore lead ≤ 100 := Nat.min_le_left 100 _
  refine ⟨by positivity, by exact_mod_cast hle, ?_⟩
  intro r hr hid
  obtain ⟨_, _, hscore, hconv⟩ := processLeadData_row_spec lead db r hr hid
  refine ⟨hscore, by positivity, ?_, ?_⟩
  · rw [hscore]; exact_mod_cast hle
  · rw [hconv, hscore]; rfl

/-- Closed instance of `lead_score_range_conversion_exact` at the fixture
lead: the stored row has score 85 and conversion probability `0.68`. -/
theorem lead_score_range_conversion_exact_inst :
    (leadAnalyticsObj exLead 1).lead_score = leadScore exLead ∧
    (0 : ℚ) ≤ ((leadAnalyticsObj exLead 1).lead_score : ℚ) ∧
    ((leadAnalyticsObj exLead 1).lead_score : ℚ) ≤ 100 ∧
    (leadAnalyticsObj exLead 1).conversion_probability =
      ((leadAnalyticsObj exLead 1).lead_score : ℚ) / 100 * 0.8 :=
  (lead_score_range_conversion_exact exLead exDb).2.2
    (leadAnalyticsObj exLead 1)
    (by rw [show (processLeadData exLead exDb).lead_analytics =
        [leadAnalyticsObj exLead 1] from rfl]
        exact List.mem_singleton.mpr rfl)
    rfl

/-! ## Claim C3 -/

theorem projectCountAdj_bounds (n : Nat) :
    0 ≤ projectCountAdj n ∧ projectCountAdj n ≤ 30 := by
  unfold projectCountAdj
  split
  · omega
  · split <;> omega

theorem recencyAdj_bounds (now : Int) (ps : List Project) :
    -10 ≤ recencyAdj now ps ∧ recencyAdj now ps ≤ 20 := by
  unfold recencyAdj
  cases (lastProject ps).bind projDate with
  | none => exact ⟨show (-10 : ℤ) ≤ 0 by decide, show (0 : ℤ) ≤ 20 by decide⟩
  | some d =>
    simp only []
    split
    · omega
    · split
      · omega
      · split <;> omega

theorem retentionScoreOf_bounds (now : Int) (ps : List Project) :
    40 ≤ retentionScoreOf now ps ∧ retentionScoreOf now ps ≤ 100 := by
  have h1 := projectCountAdj_bounds ps.length
  have h2 := recencyAdj_bounds now ps
  unfold retentionScoreOf
  omega

theorem churn_formula_range (s : Int) (h40 : 40 ≤ s) :
    (0 : ℚ) ≤ max 0 (1 - ((s : ℚ) / 100) * 0.9) ∧
    max 0 (1 - ((s : ℚ) / 100) * 0.9) ≤ 9/10 := by
  refine ⟨le_max_left _ _, max_le (by norm_num) ?_⟩
  have hs : (40 : ℚ) ≤ (s : ℚ) := by exact_mod_cast h40
  nlinarith

/-- C3. For every customer processed by `processCustomerData`, the
stored `churn_probability` equals `max(0, 1 − retention_score/100 × 0.9)`,
and for every reachable retention score (all of which lie in `[0,100]`,
indeed in `[40,100]`) this churn probability lies in `[0, 0.9]`. -/
theorem customer_churn_formula_and_range (r1 r2 : ℚ) (now : Int)
    (c : Customer) (db : Db) :
    ∀ row ∈ (processCustomerData r1 r2 now c db).customer_analytics,
      row.customer_id = c.id →
      row.churn_probability = max 0 (1 - ((row.retention_score : ℚ) / 100) * 0.9) ∧
      (0 : ℤ) ≤ row.retention_score ∧ row.retention_score ≤ 100 ∧
      (0 : ℚ) ≤ row.churn_probability ∧ row.churn_probability ≤ 9/10 := by
  intro row hr hid
  obtain ⟨hret, hchurn, _, _⟩ :=
    processCustomerData_row_spec r1 r2 now c db row hr hid
  have hb := retentionScoreOf_bounds now
    (db.projects.filter (fun p => p.customer_id == c.id))
  have h40 : 40 ≤ row.retention_score := by rw [hret]; exact hb.1
  have hcr := churn_formula_range row.retention_score h40
  refine ⟨hchurn, by omega, by rw [hret]; exact hb.2, ?_, ?_⟩
  · rw [hchurn]; exact hcr.1
  · rw [hchurn]; exact hcr.2

/-- Closed instance of `customer_churn_formula_and_range` at the fixture
customer (one project, 3 days in the future of `now = 0`): retention 70,
churn 0.37. -/
theorem customer_churn_formula_and_range_inst :
    (customerAnalyticsObj (1/2) (1/2) 0 exCustomer [exProject] 1).churn_probability =
      max 0 (1 - (((customerAnalyticsObj (1/2) (1/2) 0 exCustomer [exProject] 1).retention_score : ℚ) / 100) * 0.9) ∧
    (0 : ℤ) ≤ (customerAnalyticsObj (1/2) (1/2) 0 exCustomer [exProject] 1).retention_score ∧
    (customerAnalyticsObj (1/2) (1/2) 0 exCustomer [exProject] 1).retention_score ≤ 100 ∧
    (0 : ℚ) ≤ (customerAnalyticsObj (1/2) (1/2) 0 exCustomer [exProject] 1).churn_probability ∧
    (customerAnalyticsObj (1/2) (1/2) 0 exCustomer [exProject] 1).churn_probability ≤ 9/10 :=
  customer_churn_formula_and_range (1/2) (1/2) 0 exCustomer exDb
    (customerAnalyticsObj (1/2) (1/2) 0 exCustomer [exProject] 1)
    (by rw [show (processCustomerData (1/2) (1/2) 0 exCustomer exDb).customer_analytics =
        [customerAnalyticsObj (1/2) (1/2) 0 exCustomer [exProject] 1] from rfl]
        exact List.mem_singleton.mpr rfl)
    rfl

/-! ## Claim C9 -/

/-- C9 (counterexample). For the project whose `end_date` precedes its
`start_date` by three days, the stored `actual_duration` is `3` —
`Math.abs` is applied before dividing — whereas the claimed signed formula
`ceil((end_date − start_date) in days)` yields `−3`. -/
theorem project_duration_sign_counterexample :
    (processProjectData 0 0 "t" exProjectRev emptyDb).project_analytics.map
      (fun row => row.actual_duration) = [3] ∧
    specSignedDurationDays 259200000 0 = -3 ∧ (3 : Int) ≠ -3 := by
  refine ⟨?_, ?_, by decide⟩
  · rw [show (processProjectData 0 0 "t" exProjectRev emptyDb).project_analytics =
      [projectAnalyticsObj 0 0 "t" exProjectRev 1] from rfl]
    simp only [List.map_cons, List.map_nil]
    norm_num [projectAnalyticsObj, actualDurationOf, exProjectRev]
  · unfold specSignedDurationDays
    rw [show ((0 - 259200000 : ℤ) : ℚ) / 86400000 = ((-3 : ℤ) : ℚ) by norm_num,
      Int.ceil_intCast]

/-- C9 (amended). The stored `actual_duration` equals
`ceil(|end_date − start_date| in days)` when both dates are present — the
absolute value is taken first, so the result never carries a sign and is
never negative — and equals `estimated_duration` when either date is
absent. -/
theorem project_actual_duration_abs (r sat : ℚ) (ns : String) (p : Project)
    (db : Db) :
    ∀ row ∈ (processProjectData r sat ns p db).project_analytics,
      row.project_id = p.id →
      row.actual_duration = actualDurationOf p ∧
      (∀ s e, p.start_date = some s → p.end_date = some e →
        row.actual_duration = ⌈(((e - s).natAbs : ℚ)) / 86400000⌉) ∧
      ((p.start_date = none ∨ p.end_date = none) →
        row.actual_duration = (estimatedDurationOf p : Int)) ∧
      0 ≤ row.actual_duration := by
  intro row hr hid
  obtain ⟨_, _, _, _, hdur, _, _⟩ :=
    processProjectData_row_spec r sat ns p db row hr hid
  refine ⟨hdur, ?_, ?_, ?_⟩
  · intro s e hs he
    rw [hdur]; unfold actualDurationOf; rw [hs, he]
  · intro habs
    rw [hdur]; unfold actualDurationOf
    rcases habs with hs | he
    · rw [hs]
    · rw [he]; cases p.start_date <;> rfl
  · rw [hdur]; unfold actualDurationOf
    cases hs : p.start_date with
    | none => exact Int.natCast_nonneg _
    | some s =>
      cases he : p.end_date with
      | none => exact Int.natCast_nonneg _
      | some e => exact Int.ceil_nonneg (by positivity)

/-- Closed instance of `project_actual_duration_abs` at the fixture
project (start day 0, end day 3). -/
theorem project_actual_duration_abs_inst :
    (projectAnalyticsObj (1/2) (1/2) "t" exProject 1).actual_duration =
      actualDurationOf exProject ∧
    0 ≤ (projectAnalyticsObj (1/2) (1/2) "t" exProject 1).actual_duration := by
  have h := project_actual_duration_abs (1/2) (1/2) "t" exProject emptyDb
    (projectAnalyticsObj (1/2) (1/2) "t" exProject 1)
    (by rw [show (processProjectData (1/2) (1/2) "t" exProject emptyDb).project_analytics =
        [projectAnalyticsObj (1/2) (1/2) "t" exProject 1] from rfl]
        exact List.mem_singleton.mpr rfl)
    rfl
  exact ⟨h.1, h.2.2.2⟩

/-! ## Claim C10 -/

/-- C10. For every project with positive contract amount and every
random draw `r ∈ [0,1)`, the computed `actual_cost` equals
`0.6 × contract_amount × (0.3 r + 0.85)`; consequently the stored
`profit_margin` lies in `(0.31, 0.49]` and the stored
`cost_variance_percent` lies in `[−15, 15)`, regardless of the contract
amount. -/
theorem project_cost_margin_variance_bounds (r sat : ℚ) (ns : String)
    (p : Project) (db : Db) (hc : 0 < p.contract_amount)
    (hr0 : 0 ≤ r) (hr1 : r < 1) :
    ∀ row ∈ (processProjectData r sat ns p db).project_analytics,
      row.project_id = p.id →
      row.actual_cost = 0.6 * p.contract_amount * (0.3 * r + 0.85) ∧
      0.31 < row.profit_margin ∧ row.profit_margin ≤ 0.49 ∧
      -15 ≤ row.cost_variance_percent ∧ row.cost_variance_percent < 15 := by
  intro row hr hid
  obtain ⟨_, hac, hcv, _, _, hpm, _⟩ :=
    processProjectData_row_spec r sat ns p db row hr hid
  have hcne : p.contract_amount ≠ 0 := ne_of_gt hc
  have hpm2 : row.profit_margin = 0.49 - 0.18 * r := by
    rw [hpm]; field_simp; ring
  have hcv2 : row.cost_variance_percent = 30 * r - 15 := by
    rw [hcv]; field_simp; ring
  refine ⟨by rw [hac]; ring, ?_, ?_, ?_, ?_⟩
  · rw [hpm2]; nlinarith
  · rw [hpm2]; nlinarith
  · rw [hcv2]; nlinarith
  · rw [hcv2]; nlinarith

/-- Closed instance of `project_cost_margin_variance_bounds` at the fixture
project with draw `r = 1/2`: margin `0.4`, variance `0`. -/
theorem project_cost_margin_variance_bounds_inst :
    (projectAnalyticsObj (1/2) (1/2) "t" exProject 1).actual_cost =
      0.6 * exProject.contract_amount * (0.3 * (1/2) + 0.85) ∧
    0.31 < (projectAnalyticsObj (1/2) (1/2) "t" exProject 1).profit_margin ∧
    (projectAnalyticsObj (1/2) (1/2) "t" exProject 1).profit_margin ≤ 0.49 ∧
    -15 ≤ (projectAnalyticsObj (1/2) (1/2) "t" exProject 1).cost_variance_percent ∧
    (projectAnalyticsObj (1/2) (1/2) "t" exProject 1).cost_variance_percent < 15 :=
  project_cost_margin_variance_bounds (1/2) (1/2) "t" exProject emptyDb
    (by norm_num [exProject]) (by norm_num) (by norm_num)
    (projectAnalyticsObj (1/2) (1/2) "t" exProject 1)
    (by rw [show (processProjectData (1/2) (1/2) "t" exProject emptyDb).project_analytics =
        [projectAnalyticsObj (1/2) (1/2) "t" exProject 1] from rfl]
        exact List.mem_singleton.mpr rfl)
    rfl

/-! ## Claim C6 -/

theorem processLeadData_idem (lead : Lead) (db : Db) :
    processLeadData lead (processLeadData lead db) = processLeadData lead db := by
  have hpe : ∀ r : LeadAnalyticsRow,
      ((if r.lead_id == lead.id then leadUpdate lead r else r).lead_id == lead.id) =
      (r.lead_id == lead.id) := by
    intro r
    by_cases hc : (r.lead_id == lead.id) = true
    · rw [if_pos hc]; rfl
    · rw [if_neg hc]
  have hgg : ∀ r : LeadAnalyticsRow,
      (if (if r.lead_id == lead.id then leadUpdate lead r else r).lead_id == lead.id
        then leadUpdate lead (if r.lead_id == lead.id then leadUpdate lead r else r)
        else (if r.lead_id == lead.id then leadUpdate lead r else r)) =
      (if r.lead_id == lead.id then leadUpdate lead r else r) := by
    intro r
    by_cases hc : (r.lead_id == lead.id) = true
    · rw [if_pos hc]
      have h2 : ((leadUpdate lead r).lead_id == lead.id) = true := hc
      rw [if_pos h2]
      rfl
    · rw [if_neg hc, if_neg hc]
  unfold processLeadData
  cases hf : db.lead_analytics.find? (fun r => r.lead_id == lead.id) with
  | some x =>
    simp only []
    have hfind2 : (db.lead_analytics.map (fun r =>
        if r.lead_id == lead.id then leadUpdate lead r else r)).find?
        (fun r => r.lead_id == lead.id) = some (if x.lead_id == lead.id
          then leadUpdate lead x else x) := by
      rw [List.find?_map]
      rw [show ((fun r : LeadAnalyticsRow => r.lead_id == lead.id) ∘
          (fun r => if r.lead_id == lead.id then leadUpdate lead r else r)) =
          (fun r : LeadAnalyticsRow => r.lead_id == lead.id) from funext hpe]
      rw [hf]
      rfl
    rw [hfind2]
    simp only [List.map_map]
    rw [show ((fun r : LeadAnalyticsRow =>
        if r.lead_id == lead.id then leadUpdate lead r else r) ∘
        (fun r => if r.lead_id == lead.id then leadUpdate lead r else r)) =
        (fun r : LeadAnalyticsRow =>
          if r.lead_id == lead.id then leadUpdate lead r else r) from funext hgg]
  | none =>
    simp only []
    have hobj : (((leadAnalyticsObj lead db.nextId).lead_id == lead.id)) = true := by
      simp [leadAnalyticsObj]
    have hfind2 : ((db.lead_analytics ++ [leadAnalyticsObj lead db.nextId]).find?
        (fun r => r.lead_id == lead.id)) = some (leadAnalyticsObj lead db.nextId) := by
      rw [List.find?_append, hf]
      simp [hobj]
    rw [hfind2]
    have hmap : (db.lead_analytics ++ [leadAnalyticsObj lead db.nextId]).map
        (fun r => if r.lead_id == lead.id then leadUpdate lead r else r) =
        db.lead_analytics ++ [leadAnalyticsObj lead db.nextId] := by
      rw [List.map_append]
      have h1 : db.lead_analytics.map
          (fun r => if r.lead_id == lead.id then leadUpdate lead r else r) =
          db.lead_analytics := by
        have hall : ∀ r ∈ db.lead_analytics,
            (if r.lead_id == lead.id then leadUpdate lead r else r) = r := by
          intro r hr
          have := List.find?_eq_none.mp hf r hr
          rw [if_neg (by simpa using this)]
        rw [List.map_congr_left hall]; exact List.map_id _
      have h2 : ([leadAnalyticsObj lead db.nextId]).map
          (fun r => if r.lead_id == lead.id then leadUpdate lead r else r) =
          [leadAnalyticsObj lead db.nextId] := by
        simp only [List.map_cons, List.map_nil, hobj, if_pos]
        rfl
      rw [h1, h2]
    rw [hmap]

/-- C6. When `processLeadData` reconciles a lead whose analytics row
already exists, the stored table becomes exactly the old table with
`leadUpdate` applied to the rows of that `lead_id` — an update that writes
only `acquisition_source`, `acquisition_cost`, `lead_score` and
`conversion_probability` and leaves `id`, `days_to_conversion`,
`converted_to_customer` and `conversion_date` unchanged — no row is
inserted and the rowid counter does not move; and reconciling the same lead
twice is idempotent on the whole store. -/
theorem lead_reconcile_frame_and_idempotent (lead : Lead) (db : Db) :
    ((∃ r0 ∈ db.lead_analytics, r0.lead_id = lead.id) →
      (processLeadData lead db).lead_analytics =
        db.lead_analytics.map (fun r =>
          if r.lead_id == lead.id then leadUpdate lead r else r) ∧
      (processLeadData lead db).nextId = db.nextId) ∧
    (∀ r : LeadAnalyticsRow,
      (leadUpdate lead r).id = r.id ∧
      (leadUpdate lead r).days_to_conversion = r.days_to_conversion ∧
      (leadUpdate lead r).converted_to_customer = r.converted_to_customer ∧
      (leadUpdate lead r).conversion_date = r.conversion_date ∧
      (leadUpdate lead r).acquisition_source = acquisitionSource lead ∧
      (leadUpdate lead r).acquisition_cost =
        acquisitionCostOf (acquisitionSource lead) ∧
      (leadUpdate lead r).lead_score = leadScore lead ∧
      (leadUpdate lead r).conversion_probability = conversionProbability lead) ∧
    processLeadData lead (processLeadData lead db) = processLeadData lead db := by
  refine ⟨?_, fun r => ⟨rfl, rfl, rfl, rfl, rfl, rfl, rfl, rfl⟩,
    processLeadData_idem lead db⟩
  intro hex
  have hsome : (db.lead_analytics.find? (fun r => r.lead_id == lead.id)).isSome := by
    rw [List.find?_isSome]
    obtain ⟨r0, hr0, hid⟩ := hex
    exact ⟨r0, hr0, by simpa using hid⟩
  unfold processLeadData
  cases hf : db.lead_analytics.find? (fun r => r.lead_id == lead.id) with
  | none => rw [hf] at hsome; cases hsome
  | some x => exact ⟨rfl, rfl⟩

/-- Closed instance of `lead_reconcile_frame_and_idempotent` at the fixture
lead over the store already holding its row. -/
theorem lead_reconcile_frame_and_idempotent_inst :
    (processLeadData exLead exDbLead).lead_analytics =
      exDbLead.lead_analytics.map (fun r =>
        if r.lead_id == exLead.id then leadUpdate exLead r else r) ∧
    (processLeadData exLead exDbLead).nextId = exDbLead.nextId :=
  (lead_reconcile_frame_and_idempotent exLead exDbLead).1
    ⟨leadAnalyticsObj exLead 1,
      by rw [show exDbLead.lead_analytics = [leadAnalyticsObj exLead 1] from rfl]
         exact List.mem_singleton.mpr rfl,
      rfl⟩

/-! ## Claim C2 -/

/-- C2. After any sequence of sequential reconciliation and prediction
calls starting from a store with at most one row per key, every derived
store still holds at most one row per key; each reconciled entity has
exactly one analytics row (a second reconciliation updates it in place and
never inserts a second one); and a successful `generatePrediction` leaves
exactly one `predictive_model_results` row for its
`(model_name, entity_type, entity_id, prediction_type)` tuple. -/
theorem derived_stores_unique_per_key (ops : List Op) (db : Db)
    (h : UniqueKeys db) :
    UniqueKeys (applyOps ops db) ∧
    (∀ l : Lead, Op.lead l ∈ ops → leadRowCount (applyOps ops db) l.id = 1) ∧
    (∀ (r sat : ℚ) (ns : String) (p : Project),
      Op.project r sat ns p ∈ ops →
      projectRowCount (applyOps ops db) p.id = 1) ∧
    (∀ (r1 r2 : ℚ) (now : Int) (c : Customer),
      Op.customer r1 r2 now c ∈ ops →
      customerRowCount (applyOps ops db) c.id = 1) ∧
    (∀ w : WeatherEvent, Op.weather w ∈ ops →
      weatherRowCount (applyOps ops db) w.id = 1) ∧
    (∀ (rand : ℚ) (now : Int) (m t : String) (i : Nat) (pt : String)
        (res : PredictionRow) (db1 : Db),
      generatePrediction noFail rand now m t i pt (applyOps ops db) =
        .ok (res, db1) →
      predRowCount db1 m t i pt = 1) := by
  have hu := applyOps_unique ops db h
  refine ⟨hu, fun l hm => applyOps_leadMem ops db h l hm,
    fun r sat ns p hm => applyOps_projectMem ops db h r sat ns p hm,
    fun r1 r2 now c hm => applyOps_customerMem ops db h r1 r2 now c hm,
    fun w hm => applyOps_weatherMem ops db h w hm, ?_⟩
  intro rand now m t i pt res db1 hgp
  obtain ⟨_, _, _, _, _, _, _, _, _, _, hself, _⟩ :=
    generatePrediction_ok_props hgp
  exact hself (hu.2.2.2.2 m t i pt)

/-- Closed instance of `derived_stores_unique_per_key`: reconciling the
fixture lead twice over the empty store leaves exactly one row for it. -/
theorem derived_stores_unique_per_key_inst :
    leadRowCount (applyOps [Op.lead exLead, Op.lead exLead] emptyDb)
      exLead.id = 1 :=
  (derived_stores_unique_per_key [Op.lead exLead, Op.lead exLead] emptyDb
    (by refine ⟨fun i => ?_, fun i => ?_, fun i => ?_, fun i => ?_,
          fun m t i pt => ?_⟩ <;>
        exact Nat.le_of_eq rfl |>.trans (Nat.zero_le 1))).2.1
    exLead (List.mem_cons_self _ _)

/-! ## Claim C8 -/

/-- C8. For every aggregation level outside
`{daily, weekly, monthly, quarterly, yearly}` and any metric name,
`generateTimeBasedAggregates` rejects with the validation error for the
level and performs no writes: the returned store is exactly the input
store. -/
theorem aggregates_invalid_level_rejects_no_writes
    (strf : String → String → String) (metricName aggregationLevel : String)
    (db : Db)
    (hl : aggregationLevel ∉
      ["daily", "weekly", "monthly", "quarterly", "yearly"]) :
    generateTimeBasedAggregates strf metricName aggregationLevel db =
      (.error (.invalidLevel aggregationLevel), db) := by
  have hfmt : aggFormat aggregationLevel = none := by
    simp only [List.mem_cons, List.not_mem_nil, or_false, not_or] at hl
    obtain ⟨h1, h2, h3, h4, h5⟩ := hl
    unfold aggFormat
    rw [if_neg (by simpa using h1), if_neg (by simpa using h2),
      if_neg (by simpa using h3), if_neg (by simpa using h4),
      if_neg (by simpa using h5)]
  unfold generateTimeBasedAggregates
  rw [hfmt]

/-- Closed instance of `aggregates_invalid_level_rejects_no_writes`:
level `"fortnightly"` is rejected and the store is returned unchanged. -/
theorem aggregates_invalid_level_rejects_no_writes_inst :
    generateTimeBasedAggregates exStrf "revenue" "fortnightly" exDb =
      (.error (.invalidLevel "fortnightly"), exDb) :=
  aggregates_invalid_level_rejects_no_writes exStrf "revenue" "fortnightly"
    exDb (by decide)

/-! ## Claim C7 -/

theorem metricBuckets_agg_independent (strf : String → String → String)
    (fmt m : String) (db : Db) (x : List AggregateRow) (n : Nat) :
    metricBuckets strf fmt m
      { db with time_based_aggregates := x, nextId := n } =
    metricBuckets strf fmt m db := rfl

/-- C7. For every supported metric and aggregation level over a fixed
underlying data set, running `generateTimeBasedAggregates` twice leaves the
`time_based_aggregates` table with exactly twice the bucket rows that a
single run appends: each run appends one fresh row per bucket, with no
existence check or deduplication. -/
theorem aggregates_rerun_duplicates (strf : String → String → String)
    (m l : String) (db : Db)
    (hm : m ∈ ["revenue", "profit", "leads", "projects",
      "lead_conversion_rate", "project_profit_margin"])
    (hl : l ∈ ["daily", "weekly", "monthly", "quarterly", "yearly"]) :
    ∃ rows1 db1 rows2 db2,
      generateTimeBasedAggregates strf m l db = (.ok rows1, db1) ∧
      generateTimeBasedAggregates strf m l db1 = (.ok rows2, db2) ∧
      rows2.length = rows1.length ∧
      db1.time_based_aggregates =
        db.time_based_aggregates ++ rows1 ∧
      db2.time_based_aggregates =
        db.time_based_aggregates ++ rows1 ++ rows2 ∧
      db2.time_based_aggregates.length =
        db.time_based_aggregates.length + 2 * rows1.length := by
  obtain ⟨fmt, hfmt⟩ : ∃ fmt, aggFormat l = some fmt := by
    simp only [List.mem_cons, List.not_mem_nil, or_false] at hl
    rcases hl with rfl | rfl | rfl | rfl | rfl <;> exact ⟨_, rfl⟩
  obtain ⟨bs, hbs⟩ : ∃ bs, metricBuckets strf fmt m db = .ok bs := by
    simp only [List.mem_cons, List.not_mem_nil, or_false] at hm
    rcases hm with rfl | rfl | rfl | rfl | rfl | rfl <;> exact ⟨_, rfl⟩
  have hrun1 : generateTimeBasedAggregates strf m l db =
      (.ok (aggRowsOf m l db.nextId bs),
       { db with
         time_based_aggregates :=
           db.time_based_aggregates ++ aggRowsOf m l db.nextId bs
         nextId := db.nextId + bs.length }) := by
    simp only [generateTimeBasedAggregates, hfmt, hbs]
  have hbs2 : metricBuckets strf fmt m
      { db with
        time_based_aggregates :=
          db.time_based_aggregates ++ aggRowsOf m l db.nextId bs
        nextId := db.nextId + bs.length } = .ok bs := by
    rw [metricBuckets_agg_independent]; exact hbs
  have hrun2 : generateTimeBasedAggregates strf m l
      { db with
        time_based_aggregates :=
          db.time_based_aggregates ++ aggRowsOf m l db.nextId bs
        nextId := db.nextId + bs.length } =
      (.ok (aggRowsOf m l (db.nextId + bs.length) bs),
       { db with
         time_based_aggregates :=
           db.time_based_aggregates ++ aggRowsOf m l db.nextId bs ++
             aggRowsOf m l (db.nextId + bs.length) bs
         nextId := db.nextId + bs.length + bs.length }) := by
    simp only [generateTimeBasedAggregates, hfmt, hbs2]
  have hlen : ∀ n : Nat, (aggRowsOf m l n bs).length = bs.length := by
    intro n; simp [aggRowsOf, List.enum_length]
  refine ⟨_, _, _, _, hrun1, hrun2, ?_, rfl, rfl, ?_⟩
  · rw [hlen, hlen]
  · simp only [List.length_append, hlen]
    ring

/-- Closed instance of `aggregates_rerun_duplicates` for the revenue metric
at monthly level over the fixture store. -/
theorem aggregates_rerun_duplicates_inst :
    ∃ rows1 db1 rows2 db2,
      generateTimeBasedAggregates exStrf "revenue" "monthly" exDb =
        (.ok rows1, db1) ∧
      generateTimeBasedAggregates exStrf "revenue" "monthly" db1 =
        (.ok rows2, db2) ∧
      rows2.length = rows1.length ∧
      db1.time_based_aggregates = exDb.time_based_aggregates ++ rows1 ∧
      db2.time_based_aggregates =
        exDb.time_based_aggregates ++ rows1 ++ rows2 ∧
      db2.time_based_aggregates.length =
        exDb.time_based_aggregates.length + 2 * rows1.length :=
  aggregates_rerun_duplicates exStrf "revenue" "monthly" exDb
    (by decide) (by decide)

/-! ## Claim C4 -/

theorem savePrediction_predCheck_error (plan : FailurePlan)
    (h : plan.predCheck = true) (now : Int) (m t : String) (i : Nat)
    (pt : String) (v cs : ℚ) (fs : List String) (ed : Int) (db : Db) :
    savePrediction plan now m t i pt v cs fs ed db = .error .storeError := by
  unfold savePrediction
  rw [if_pos h]

theorem savePrediction_predWrite_error (plan : FailurePlan)
    (hc : plan.predCheck = false) (hw : plan.predWrite = true) (now : Int)
    (m t : String) (i : Nat) (pt : String) (v cs : ℚ) (fs : List String)
    (ed : Int) (db : Db) :
    savePrediction plan now m t i pt v cs fs ed db = .error .storeError := by
  simp only [savePrediction, hc, hw, Bool.false_eq_true, if_false, if_true]
  cases hf : db.predictive_model_results.find? (fun r =>
      r.model_name == m && r.entity_type == t && r.entity_id == i &&
      r.prediction_type == pt) <;> simp [hf]

theorem savePrediction_ok_flags (plan : FailurePlan)
    (hc : plan.predCheck = false) (hw : plan.predWrite = false) (now : Int)
    (m t : String) (i : Nat) (pt : String) (v cs : ℚ) (fs : List String)
    (ed : Int) (db : Db) :
    ∃ res db1, savePrediction plan now m t i pt v cs fs ed db = .ok (res, db1) ∧
      res.prediction_value = v ∧ res.confidence_score = cs := by
  simp only [savePrediction, hc, hw, Bool.false_eq_true, if_false]
  cases hf : db.predictive_model_results.find? (fun r =>
      r.model_name == m && r.entity_type == t && r.entity_id == i &&
      r.prediction_type == pt) with
  | some row0 =>
    exact ⟨{ predictionUpdate v cs fs now (now + ed * 86400000) row0 with
        id := row0.id },
      { db with predictive_model_results :=
          db.predictive_model_results.map (fun r =>
            if r.id == row0.id then
              predictionUpdate v cs fs now (now + ed * 86400000) r else r) },
      rfl, rfl, rfl⟩
  | none =>
    exact ⟨{ id := db.nextId, model_name := m, entity_type := t,
             entity_id := i, prediction_type := pt, prediction_value := v,
             confidence_score := cs, features_used := fs,
             prediction_date := now,
             expiration_date := now + ed * 86400000 },
      { db with
        predictive_model_results := db.predictive_model_results ++
          [{ id := db.nextId, model_name := m, entity_type := t,
             entity_id := i, prediction_type := pt, prediction_value := v,
             confidence_score := cs, features_used := fs,
             prediction_date := now,
             expiration_date := now + ed * 86400000 }],
        nextId := db.nextId + 1 },
      rfl, rfl, rfl⟩

/-- C4 (amended). A store failure on the initial entity read of
`generatePrediction`, or on the existence check or write of
`savePrediction`, propagates to the caller as a rejection. But a store
failure on a named strategy reading the prior analytics record of the
entity does not propagate: the
`if (err || !row)` fallback treats it like an absent record, substitutes
the lower-confidence randomized prediction, and the call still resolves. -/
theorem prediction_store_error_propagation (plan : FailurePlan) (rand : ℚ)
    (now : Int) (m t : String) (i : Nat) (pt : String) (db : Db) :
    (plan.entityRead = true →
      generatePrediction plan rand now m t i pt db = .error .storeError) ∧
    (plan.entityRead = false → plan.predCheck = true →
      entityExists t i db = .ok true →
      generatePrediction plan rand now m t i pt db = .error .storeError) ∧
    (plan.entityRead = false → plan.predCheck = false →
      plan.predWrite = true → entityExists t i db = .ok true →
      generatePrediction plan rand now m t i pt db = .error .storeError) ∧
    (plan.entityRead = false → plan.analyticsRead = true →
      plan.predCheck = false → plan.predWrite = false →
      entityExists t i db = .ok true →
      m = "lead_conversion_model" → pt = "conversion_probability" →
      ∃ res db1,
        generatePrediction plan rand now m t i pt db = .ok (res, db1) ∧
        res.prediction_value = rand * 0.7 + 0.1 ∧
        res.confidence_score = 0.6) ∧
    (plan.entityRead = false → plan.analyticsRead = true →
      plan.predCheck = false → plan.predWrite = false →
      entityExists t i db = .ok true →
      m = "customer_churn_model" → pt = "churn_probability" →
      ∃ res db1,
        generatePrediction plan rand now m t i pt db = .ok (res, db1) ∧
        res.prediction_value = rand * 0.4 + 0.1 ∧
        res.confidence_score = 0.6) ∧
    (plan.entityRead = false → plan.analyticsRead = true →
      plan.predCheck = false → plan.predWrite = false →
      entityExists t i db = .ok true →
      m = "project_cost_model" → pt = "cost_overrun_probability" →
      ∃ res db1,
        generatePrediction plan rand now m t i pt db = .ok (res, db1) ∧
        res.prediction_value = rand * 0.5 + 0.2 ∧
        res.confidence_score = 0.7) := by
  refine ⟨?_, ?_, ?_, ?_, ?_, ?_⟩
  · intro hpe
    unfold generatePrediction
    rw [if_pos hpe]
  · intro hpe hpc hee
    simp only [generatePrediction, hpe, Bool.false_eq_true, if_false, hee,
      analyticsReadResult]
    by_cases ha : plan.analyticsRead = true
    · simp only [ha, if_true]
      split
      · exact savePrediction_predCheck_error plan hpc now m t i pt _ _ _ _ db
      · split
        · exact savePrediction_predCheck_error plan hpc now m t i pt _ _ _ _ db
        · split
          · exact savePrediction_predCheck_error plan hpc now m t i pt _ _ _ _ db
          · exact savePrediction_predCheck_error plan hpc now m t i pt _ _ _ _ db
    · rw [Bool.not_eq_true] at ha
      simp only [ha, Bool.false_eq_true, if_false]
      split
      · cases hfa : db.lead_analytics.find? (fun r => r.lead_id == i) <;>
          simp only [hfa] <;>
          exact savePrediction_predCheck_error plan hpc now m t i pt _ _ _ _ db
      · split
        · cases hfa : db.customer_analytics.find? (fun r => r.customer_id == i) <;>
            simp only [hfa] <;>
            exact savePrediction_predCheck_error plan hpc now m t i pt _ _ _ _ db
        · split
          · cases hfa : db.project_analytics.find? (fun r => r.project_id == i) <;>
              simp only [hfa] <;>
              exact savePrediction_predCheck_error plan hpc now m t i pt _ _ _ _ db
          · exact savePrediction_predCheck_error plan hpc now m t i pt _ _ _ _ db
  · intro hpe hpc hpw hee
    simp only [generatePrediction, hpe, Bool.false_eq_true, if_false, hee,
      analyticsReadResult]
    by_cases ha : plan.analyticsRead = true
    · simp only [ha, if_true]
      split
      · exact savePrediction_predWrite_error plan hpc hpw now m t i pt _ _ _ _ db
      · split
        · exact savePrediction_predWrite_error plan hpc hpw now m t i pt _ _ _ _ db
        · split
          · exact savePrediction_predWrite_error plan hpc hpw now m t i pt _ _ _ _ db
          · exact savePrediction_predWrite_error plan hpc hpw now m t i pt _ _ _ _ db
    · rw [Bool.not_eq_true] at ha
      simp only [ha, Bool.false_eq_true, if_false]
      split
      · cases hfa : db.lead_analytics.find? (fun r => r.lead_id == i) <;>
          simp only [hfa] <;>
          exact savePrediction_predWrite_error plan hpc hpw now m t i pt _ _ _ _ db
      · split
        · cases hfa : db.customer_analytics.find? (fun r => r.customer_id == i) <;>
            simp only [hfa] <;>
            exact savePrediction_predWrite_error plan hpc hpw now m t i pt _ _ _ _ db
        · split
          · cases hfa : db.project_analytics.find? (fun r => r.project_id == i) <;>
              simp only [hfa] <;>
              exact savePrediction_predWrite_error plan hpc hpw now m t i pt _ _ _ _ db
          · exact savePrediction_predWrite_error plan hpc hpw now m t i pt _ _ _ _ db
  · intro hpe ha hpc hpw hee hm hpt
    subst hm; subst hpt
    simp only [generatePrediction, hpe, Bool.false_eq_true, if_false, hee,
      analyticsReadResult, ha, if_true]
    rw [if_pos (by decide)]
    exact savePrediction_ok_flags plan hpc hpw now _ t i _ _ _ _ _ db
  · intro hpe ha hpc hpw hee hm hpt
    subst hm; subst hpt
    simp only [generatePrediction, hpe, Bool.false_eq_true, if_false, hee,
      analyticsReadResult, ha, if_true]
    rw [if_neg (by decide), if_pos (by decide)]
    exact savePrediction_ok_flags plan hpc hpw now _ t i _ _ _ _ _ db
  · intro hpe ha hpc hpw hee hm hpt
    subst hm; subst hpt
    simp only [generatePrediction, hpe, Bool.false_eq_true, if_false, hee,
      analyticsReadResult, ha, if_true]
    rw [if_neg (by decide), if_neg (by decide), if_pos (by decide)]
    exact savePrediction_ok_flags plan hpc hpw now _ t i _ _ _ _ _ db

/-- C4 (counterexample). With the lead, its analytics row and the
prediction store all present, injecting a store failure into the
analytics read of the lead strategy does not reject the call: it resolves with
the fallback prediction (confidence 0.6, value `rand × 0.7 + 0.1`) instead
of propagating the error. -/
theorem prediction_swallowed_read_error_counterexample :
    exPlanAnalyticsFail.analyticsRead = true ∧
    (generatePrediction exPlanAnalyticsFail (1/2) 0 "lead_conversion_model"
        "lead" 1 "conversion_probability" exDbLead).toOption.map
      (fun p => (p.1.confidence_score, p.1.prediction_value)) =
      some (0.6, 1/2 * 0.7 + 0.1) :=
  ⟨rfl, rfl⟩

/-- Closed instance of `prediction_store_error_propagation`: a failed
entity read rejects, and a failed analytics read under the lead strategy
still resolves with the fallback. -/
theorem prediction_store_error_propagation_inst :
    (generatePrediction
      { entityRead := true, analyticsRead := false, predCheck := false,
        predWrite := false } (1/2) 0 "lead_conversion_model" "lead" 1
      "conversion_probability" exDbLead = .error .storeError) ∧
    (∃ res db1,
      generatePrediction exPlanAnalyticsFail (1/2) 0 "lead_conversion_model"
        "lead" 1 "conversion_probability" exDbLead = .ok (res, db1) ∧
      res.prediction_value = 1/2 * 0.7 + 0.1 ∧
      res.confidence_score = 0.6) :=
  ⟨(prediction_store_error_propagation
      { entityRead := true, analyticsRead := false, predCheck := false,
        predWrite := false } (1/2) 0 "lead_conversion_model" "lead" 1
      "conversion_probability" exDbLead).1 rfl,
   (prediction_store_error_propagation exPlanAnalyticsFail (1/2) 0
      "lead_conversion_model" "lead" 1 "conversion_probability"
      exDbLead).2.2.2.1 rfl rfl rfl rfl rfl rfl rfl⟩

/-! ## Claim C5 -/

theorem foldl_lead_frame (ls : List Lead) (db : Db) :
    (ls.foldl (fun d l => processLeadData l d) db).leads = db.leads ∧
    (ls.foldl (fun d l => processLeadData l d) db).projects = db.projects ∧
    (ls.foldl (fun d l => processLeadData l d) db).customers = db.customers ∧
    (ls.foldl (fun d l => processLeadData l d) db).weather_events =
      db.weather_events := by
  induction ls generalizing db with
  | nil => exact ⟨rfl, rfl, rfl, rfl⟩
  | cons l tl ih =>
    obtain ⟨f1, f2, f3, f4, _⟩ := processLeadData_frame l db
    obtain ⟨g1, g2, g3, g4⟩ := ih (processLeadData l db)
    exact ⟨g1.trans f1, g2.trans f2, g3.trans f3, g4.trans f4⟩

theorem foldl_project_frame (rng : Nat → ℚ) (nowStr : String)
    (ps : List Project) (kd : Nat × Db) :
    (ps.foldl (fun kd p =>
      (kd.1 + 2, processProjectData (rng kd.1) (rng (kd.1 + 1)) nowStr p kd.2))
      kd).2.leads = kd.2.leads ∧
    (ps.foldl (fun kd p =>
      (kd.1 + 2, processProjectData (rng kd.1) (rng (kd.1 + 1)) nowStr p kd.2))
      kd).2.customers = kd.2.customers ∧
    (ps.foldl (fun kd p =>
      (kd.1 + 2, processProjectData (rng kd.1) (rng (kd.1 + 1)) nowStr p kd.2))
      kd).2.weather_events = kd.2.weather_events := by
  induction ps generalizing kd with
  | nil => exact ⟨rfl, rfl, rfl⟩
  | cons p tl ih =>
    obtain ⟨f1, _, f3, f4, _⟩ :=
      processProjectData_frame (rng kd.1) (rng (kd.1 + 1)) nowStr p kd.2
    obtain ⟨g1, g3, g4⟩ := ih
      (kd.1 + 2, processProjectData (rng kd.1) (rng (kd.1 + 1)) nowStr p kd.2)
    exact ⟨g1.trans f1, g3.trans f3, g4.trans f4⟩

theorem foldl_customer_frame (rng : Nat → ℚ) (now : Int)
    (cs : List Customer) (kd : Nat × Db) :
    (cs.foldl (fun kd c =>
      (kd.1 + 2, processCustomerData (rng kd.1) (rng (kd.1 + 1)) now c kd.2))
      kd).2.weather_events = kd.2.weather_events := by
  induction cs generalizing kd with
  | nil => rfl
  | cons c tl ih =>
    obtain ⟨_, _, _, f4, _⟩ :=
      processCustomerData_frame (rng kd.1) (rng (kd.1 + 1)) now c kd.2
    exact (ih (kd.1 + 2,
      processCustomerData (rng kd.1) (rng (kd.1 + 1)) now c kd.2)).trans f4

/-- C5 (amended). When the batch orchestrator completes successfully,
the field `predictionsGenerated` of the returned summary is the hard-coded constant
`10 + 5 + 5 = 20` and `aggregatesGenerated` the hard-coded constant `6`,
regardless of how many predictions were actually generated (which is
`min(10, #leads) + min(5, #customers) + min(5, #projects)`); the per-kind
processed counts do equal the table lengths. -/
theorem batch_summary_constant_counts (rng : Nat → ℚ) (now : Int)
    (nowStr : String) (strf : String → String → String) (db : Db)
    (s : Summary) (dbF : Db)
    (h : processAllData rng now nowStr strf db = .ok (s, dbF)) :
    s.predictionsGenerated = 20 ∧ s.aggregatesGenerated = 6 ∧
    s.leadsProcessed = db.leads.length ∧
    s.projectsProcessed = db.projects.length ∧
    s.customersProcessed = db.customers.length ∧
    s.weatherEventsProcessed = db.weather_events.length := by
  simp only [processAllData] at h
  split at h
  · simp at h
  · split at h
    · simp at h
    · split at h
      · simp at h
      · split at h
        · simp at h
        · cases h
          have hl := foldl_lead_frame db.leads db
          have hp := foldl_project_frame rng nowStr
            (db.leads.foldl (fun d l => processLeadData l d) db).projects
            (0, db.leads.foldl (fun d l => processLeadData l d) db)
          refine ⟨rfl, rfl, rfl, ?_, ?_, ?_⟩
          · rw [hl.2.1]
          · rw [hp.2.1, hl.2.2.1]
          · rw [foldl_customer_frame, hp.2.2, hl.2.2.2]

/-- C5 (counterexample). Over the store with 3 leads, 2 customers and
no projects, the batch run resolves with `predictionsGenerated = 20` even
though only 5 predictions were actually generated (5 rows in the initially
empty `predictive_model_results`). -/
theorem batch_summary_overcounts_counterexample :
    (processAllData exRng 0 "now" exStrf exDbBatch).toOption.map
      (fun sdb => (sdb.1.predictionsGenerated,
        sdb.2.predictive_model_results.length)) = some (20, 5) ∧
    (20 : Nat) ≠ 5 :=
  ⟨rfl, by decide⟩

/-- Closed instance of `batch_summary_constant_counts` over the batch
fixture store. -/
theorem batch_summary_constant_counts_inst :
    ∃ s dbF, processAllData exRng 0 "now" exStrf exDbBatch = .ok (s, dbF) ∧
      s.predictionsGenerated = 20 ∧ s.aggregatesGenerated = 6 ∧
      s.leadsProcessed = 3 ∧ s.customersProcessed = 2 ∧
      s.projectsProcessed = 0 :=
  ⟨_, _, rfl,
    (batch_summary_constant_counts exRng 0 "now" exStrf exDbBatch _ _ rfl).1,
    (batch_summary_constant_counts exRng 0 "now" exStrf exDbBatch _ _ rfl).2.1,
    (batch_summary_constant_counts exRng 0 "now" exStrf exDbBatch _ _ rfl).2.2.1,
    (batch_summary_constant_counts exRng 0 "now" exStrf exDbBatch _ _ rfl).2.2.2.2.1,
    (batch_summary_constant_counts exRng 0 "now" exStrf exDbBatch _ _ rfl).2.2.2.1⟩

end GalacticRoof
